import Mathlib

/-!
# Tic-tac-toe match session: the client state machine

A shallow embedding of `src/screens/GameScreen.js` (the React component that
holds the match session) and of the parts of `src/services/nakama.js` it calls.

* React state (`useState`) is a record `Session`; every `setX(v)` is a field
  update, and a handler is a function from the session before the handler to the
  session after it.
* The handlers registered with the socket in `initializeGame` are the ones of
  the first render; the values they close over are the record `Captured`.
* The service module `nakama.js` keeps its state in module variables; that
  state is the record `Nakama`, and the module object stored in `nakamaRef` is
  `NakamaModule`.
* Decoded JSON scalars are `JsVal`; a payload field that holds an array or an
  object is an `Option`, `none` standing for an absent (or `null`) field.
-/

namespace TicTacToe

/-! ## JavaScript values -/

/-- Scalar JavaScript values found in the session state and in decoded payloads. -/
inductive JsVal where
  | undefined
  | null
  | bool (b : Bool)
  | num (n : Int)
  | str (s : String)
  deriving DecidableEq, Repr

/-- JavaScript truthiness, as tested by `if (v)`, `!v` and `v || w`. -/
def JsVal.truthy : JsVal → Bool
  | .undefined => false
  | .null => false
  | .bool b => b
  | .num n => n != 0
  | .str s => s != ""

/-- The JavaScript expression `a || b` on scalars. -/
def jsOr (a b : JsVal) : JsVal :=
  if a.truthy then a else b

/-- The JavaScript expression `board[index]`: `undefined` outside the array. -/
def boardAt (board : List JsVal) (index : Nat) : JsVal :=
  (board.get? index).getD JsVal.undefined

/-- The JavaScript expression `Array(9).fill(null)`. -/
def emptyBoard : List JsVal :=
  List.replicate 9 JsVal.null

/-! ## Protocol (`GameScreen.js` lines 5-13, `nakama.js` lines 167-224) -/

namespace OpCode

@[reducible] def GAME_STATE : Int := 1
@[reducible] def MOVE : Int := 2
@[reducible] def GAME_OVER : Int := 3
@[reducible] def ERROR : Int := 4
@[reducible] def TURN_UPDATE : Int := 5
@[reducible] def PLAYER_JOIN : Int := 6
@[reducible] def PLAYER_LEAVE : Int := 7

end OpCode

/-- Fields the handlers read from a decoded payload object. -/
structure Payload where
  type : JsVal
  board : Option (List JsVal)
  currentTurn : JsVal
  currentSymbol : JsVal
  players : Option (List (String × String))
  yourSymbol : JsVal
  winner : JsVal
  winningLine : Option (List Nat)
  reason : JsVal
  message : JsVal
  deriving DecidableEq, Repr

/-- The payload `{}`: every field reads as `undefined`. -/
def Payload.empty : Payload :=
  { type := JsVal.undefined, board := none, currentTurn := JsVal.undefined,
    currentSymbol := JsVal.undefined, players := none, yourSymbol := JsVal.undefined,
    winner := JsVal.undefined, winningLine := none, reason := JsVal.undefined,
    message := JsVal.undefined }

/-- Envelope passed to `handleMatchData`. `data = none` is a payload that decoded
to `null`, on which every property access throws a TypeError. -/
structure Message where
  opCode : Int
  senderId : JsVal
  data : Option Payload
  deriving DecidableEq, Repr

/-- Arguments of one `socket.sendMatchState(matchId, opCode, bytes)` call. -/
structure MatchState where
  matchId : JsVal
  opCode : Int
  data : String
  deriving DecidableEq, Repr

/-! ## Session state (`GameScreen.js` lines 15-36) -/

/-- Values of the `status` state variable. -/
inductive Status where
  | connecting
  | searching
  | waiting_for_players
  | playing
  | opponent_left
  | error
  deriving DecidableEq, Repr

/-- Object handed to `onGameEnd` (lines 179-184). -/
structure GameResult where
  winner : JsVal
  mySymbol : JsVal
  reason : JsVal
  board : List JsVal
  deriving DecidableEq, Repr

/-- State of one mounted `GameScreen`: the `useState` variables, plus the
callbacks scheduled with `setTimeout` and not yet run (`timeouts`). -/
structure Session where
  board : List JsVal
  mySymbol : JsVal
  currentTurn : JsVal
  currentSymbol : JsVal
  players : List (String × String)
  winner : JsVal
  winningLine : Option (List Nat)
  gameOver : Bool
  status : Status
  error : JsVal
  matchId : JsVal
  timeRemaining : Int
  timeouts : List GameResult
  deriving DecidableEq, Repr

/-- Initial values given to `useState` (lines 17-32). -/
def Session.initial : Session :=
  { board := emptyBoard, mySymbol := JsVal.null, currentTurn := JsVal.null,
    currentSymbol := JsVal.str "X", players := [], winner := JsVal.null,
    winningLine := none, gameOver := false, status := Status.connecting,
    error := JsVal.null, matchId := JsVal.null, timeRemaining := 30, timeouts := [] }

/-- Values closed over by the handlers that `initializeGame` registers. -/
structure Captured where
  gameMode : String
  mySymbol : JsVal
  board : List JsVal
  deriving DecidableEq, Repr

/-- Closure of the first render, the one whose `initializeGame` runs (line 40). -/
def Captured.firstRender (gameMode : String) : Captured :=
  { gameMode := gameMode, mySymbol := Session.initial.mySymbol,
    board := Session.initial.board }

/-! ## Service module (`nakama.js`) -/

/-- The socket of the client library. Whether its `sendMatchState` throws
synchronously is a property of the library, taken as a parameter. -/
structure Socket where
  sendMatchStateThrows : Bool
  deriving DecidableEq, Repr

/-- Module variables of `nakama.js` read by `sendMove` and `getPlayerId`. -/
structure Nakama where
  socket : Option Socket
  matchId : JsVal
  currentPlayerId : JsVal
  deriving DecidableEq, Repr

/-- The text `JSON.stringify({ position: position })` for a non-negative safe
integer `position` (below `2^53`, as every array index is): the decimal digits
between the key and the closing brace. Larger numbers, which `JSON.stringify`
writes in exponent notation from `1e21` on, are outside this model. -/
def movePayload (position : Nat) : String :=
  "\x7b\"position\":" ++ toString position ++ "\x7d"

/-- Function `sendMove` (`nakama.js` lines 206-224): the returned boolean and the
`sendMatchState` calls that went through. -/
def sendMove (n : Nakama) (position : Nat) : Bool × List MatchState :=
  match n.socket with
  | none => (false, [])
  | some socket =>
    if !n.matchId.truthy then (false, [])
    else if socket.sendMatchStateThrows then (false, [])
    else (true, [{ matchId := n.matchId, opCode := 2, data := movePayload position }])

/-- What `await p` yields: the value the promise resolves to, or a rejection. -/
inductive Awaited where
  | resolved (success : Bool)
  | rejected
  deriving DecidableEq, Repr

/-- The object in `nakamaRef.current`, as far as `GameScreen` uses it. -/
structure NakamaModule where
  getPlayerId : JsVal
  sendMove : Nat → Awaited × List MatchState

/-- The module object of `nakama.js` in module state `n`. -/
def Nakama.module (n : Nakama) : NakamaModule :=
  { getPlayerId := n.currentPlayerId,
    sendMove := fun position =>
      (Awaited.resolved (sendMove n position).1, (sendMove n position).2) }

/-! ## Handlers (`GameScreen.js` lines 108-226) -/

/-- Function `handleGameOver` (lines 165-187). With `data = none` the first
setter runs and `data.winner` throws; `handleMatchData` catches it. -/
def handleGameOver (c : Captured) (s : Session) : Option Payload → Session
  | none => { s with gameOver := true }
  | some data =>
    let s1 := { s with gameOver := true, winner := data.winner }
    let s2 := match data.winningLine with
      | some line => { s1 with winningLine := some line }
      | none => s1
    let s3 := match data.board with
      | some b => { s2 with board := b }
      | none => s2
    { s3 with timeouts := s3.timeouts ++
        [{ winner := data.winner, mySymbol := c.mySymbol, reason := data.reason,
           board := data.board.getD c.board }] }

/-- Function `handleMatchData` (lines 108-155). -/
def handleMatchData (c : Captured) (s : Session) (message : Message) : Session :=
  if message.opCode = OpCode.PLAYER_JOIN then
    match message.data with
    | none => s
    | some data =>
      if data.yourSymbol.truthy then { s with mySymbol := data.yourSymbol } else s
  else if message.opCode = OpCode.GAME_STATE then
    match message.data with
    | none => s
    | some data =>
      if data.type = JsVal.str "game_start" ∨ data.type = JsVal.str "game_state" then
        let s1 := { s with
          board := data.board.getD emptyBoard,
          currentTurn := data.currentTurn,
          currentSymbol := jsOr data.currentSymbol (JsVal.str "X"),
          players := data.players.getD [],
          status := Status.playing }
        let s2 := if data.yourSymbol.truthy then { s1 with mySymbol := data.yourSymbol } else s1
        if c.gameMode = "timed" then { s2 with timeRemaining := 30 } else s2
      else s
  else if message.opCode = OpCode.GAME_OVER then
    handleGameOver c s message.data
  else if message.opCode = OpCode.ERROR then
    match message.data with
    | none => s
    | some data => { s with error := data.message }
  else s

/-- Function `handlePresenceChange` (lines 157-163). -/
def handlePresenceChange (s : Session) (_joins leaves : List String) : Session :=
  if leaves.length > 0 then { s with status := Status.opponent_left } else s

/-- Callback installed by `onMatchPresence` (`nakama.js` lines 197-200):
`callback(presences.joins || [], presences.leaves || [])`. -/
def onMatchPresence (s : Session) (joins leaves : Option (List String)) : Session :=
  handlePresenceChange s (joins.getD []) (leaves.getD [])

/-- Function `isMyTurn` (lines 195-199). -/
def isMyTurn (nakamaRef : Option NakamaModule) (s : Session) : Bool :=
  match nakamaRef with
  | none => false
  | some nakama => s.currentTurn == nakama.getPlayerId

/-- Effect of one `handleCellClick` call: the session after the synchronous
part (up to the `await`), the session once the call has completed, and the
match-state messages handed to the socket. -/
structure ClickOutcome where
  optimistic : Session
  final : Session
  sent : List MatchState
  deriving DecidableEq, Repr

/-- A call that returns at line 204. -/
def ClickOutcome.none (s : Session) : ClickOutcome :=
  { optimistic := s, final := s, sent := [] }

/-- Lines 207-225 of `handleCellClick`, given what `sendMove(index)` does. Here
`board[index] === null`, so `index` is inside the array. -/
def tryMove (s : Session) (index : Nat) (send : Awaited × List MatchState) : ClickOutcome :=
  let newBoard := s.board.set index s.mySymbol
  let s1 := { s with board := newBoard }
  match send.1 with
  | Awaited.resolved true => { optimistic := s1, final := s1, sent := send.2 }
  | Awaited.resolved false =>
    { optimistic := s1,
      final := { s1 with board := s.board, error := JsVal.str "Failed to send move" },
      sent := send.2 }
  | Awaited.rejected =>
    { optimistic := s1,
      final := { s1 with board := s.board, error := JsVal.str "Failed to send move" },
      sent := send.2 }

/-- Function `handleCellClick` (lines 201-226). -/
def handleCellClick (nakamaRef : Option NakamaModule) (s : Session) (index : Nat) :
    ClickOutcome :=
  if !isMyTurn nakamaRef s || boardAt s.board index != JsVal.null || s.gameOver then
    ClickOutcome.none s
  else
    match nakamaRef with
    | none => ClickOutcome.none s
    | some nakama => tryMove s index (nakama.sendMove index)

/-- Callback passed to `onMatchmakerMatched` (lines 80-84). -/
def onMatched (s : Session) (matchId : JsVal) : Session :=
  { s with matchId := matchId, status := Status.waiting_for_players }

/-- Updater run by one tick of the turn timer (lines 55-61). -/
def timerTick (s : Session) : Session :=
  { s with timeRemaining := if s.timeRemaining ≤ 1 then 0 else s.timeRemaining - 1 }

/-! ## Events of a session -/

/-- What can happen to a mounted session. -/
inductive Event where
  | matchData (message : Message)
  | presence (joins leaves : List String)
  | click (nakamaRef : Option NakamaModule) (index : Nat)
  | matched (matchId : JsVal)
  | tick

/-- The session after one event. -/
def step (c : Captured) (s : Session) : Event → Session
  | Event.matchData message => handleMatchData c s message
  | Event.presence joins leaves => handlePresenceChange s joins leaves
  | Event.click nakamaRef index => (handleCellClick nakamaRef s index).final
  | Event.matched matchId => onMatched s matchId
  | Event.tick => timerTick s

/-- The session after a sequence of events, oldest first. -/
def run (c : Captured) (s : Session) (events : List Event) : Session :=
  events.foldl (step c) s

/-! ## Session start (`GameScreen.js` lines 72-106, `nakama.js` lines 120-142) -/

/-- Object returned by `findMatch`; a missing `ticket` property reads as `undefined`. -/
structure FindMatchResult where
  matchId : JsVal
  ticket : JsVal
  deriving DecidableEq, Repr

/-- Function `findMatch` (`nakama.js` lines 120-142). The awaited library call
`socket.addMatchmaker(...)` is a parameter: `some t` when it resolves to a ticket
object whose `ticket` is `t`, `none` when it rejects. -/
def findMatch (n : Nakama) (addMatchmaker : Option JsVal) : FindMatchResult :=
  match n.socket with
  | none => { matchId := JsVal.null, ticket := JsVal.undefined }
  | some _ =>
    match addMatchmaker with
    | some ticket => { matchId := JsVal.null, ticket := ticket }
    | none => { matchId := JsVal.null, ticket := JsVal.undefined }

/-- Function `initializeGame` (lines 72-106). The dynamic import yields the
service module in state `n` (`some n`) or rejects (`none`); registering the
three handlers calls no setter; the result of `findMatch` is only logged. -/
def initializeGame (imported : Option Nakama) (addMatchmaker : Option JsVal)
    (s : Session) : Session :=
  let s1 := { s with status := Status.connecting }
  match imported with
  | none =>
    { s1 with error := JsVal.str "Failed to connect to game server", status := Status.error }
  | some nakama =>
    let s2 := { s1 with status := Status.searching }
    if (findMatch nakama addMatchmaker).ticket.truthy then s2 else s2

/-! ## Turn timer (`GameScreen.js` lines 52-70) -/

/-- Condition of the timer effect (line 53): whether a run of the effect
creates the interval. -/
def timerEffect (gameMode : String) (nakamaRef : Option NakamaModule) (s : Session) : Bool :=
  gameMode == "timed" && s.matchId.truthy && !s.gameOver && isMyTurn nakamaRef s

/-- A session together with the interval held in `timerRef`: `running` tells
whether the interval is still set. -/
structure Countdown where
  session : Session
  running : Bool
  deriving DecidableEq, Repr

/-- One firing of the interval callback (lines 54-62): the updater of
`timerTick` runs, and `clearInterval` is called when the value was 1 or less.
A cleared interval does not fire. -/
def intervalTick (t : Countdown) : Countdown :=
  if t.running then
    { session := timerTick t.session, running := !decide (t.session.timeRemaining ≤ 1) }
  else t

/-! ## Decoder of incoming match data (`nakama.js` lines 167-189) -/

/-- The `result` object the socket hands to `onmatchdata`: `data` is `none` when
`result.data` is falsy, `presence` holds the sender's `user_id` when present. -/
structure MatchData where
  op_code : Int
  presence : Option JsVal
  data : Option (List Nat)
  deriving DecidableEq, Repr

/-- Lines 171-184: the message handed to the callback, or `none` when parsing
throws and the catch at line 185 drops the message. `jsonParse bytes` stands for
`JSON.parse(new TextDecoder().decode(bytes))`: `none` when it throws, `some none`
when the document is `null`, `some (some p)` for any other document. -/
def decodeMatchData (jsonParse : List Nat → Option (Option Payload)) (result : MatchData) :
    Option Message :=
  match result.data with
  | none =>
    some { opCode := result.op_code, senderId := result.presence.getD JsVal.null,
           data := some Payload.empty }
  | some bytes =>
    match jsonParse bytes with
    | none => none
    | some data =>
      some { opCode := result.op_code, senderId := result.presence.getD JsVal.null,
             data := data }

/-- The handler `socket.onmatchdata` installed by `onMatchData` with the callback
of `initializeGame` (lines 86-88), which calls `handleMatchData`. -/
def onMatchData (jsonParse : List Nat → Option (Option Payload)) (c : Captured)
    (s : Session) (result : MatchData) : Session :=
  match decodeMatchData jsonParse result with
  | none => s
  | some message => handleMatchData c s message

/-! ## Teardown and the grace delay (`GameScreen.js` lines 42-48, 177-193) -/

/-- Cleanup of the mount effect (lines 42-48) with `cleanupGame` (lines 189-193):
the interval in `timerRef` is cleared and the match is left; no setter is called
and no `clearTimeout` exists, so the pending timeouts stay. -/
def cleanup (t : Countdown) : Countdown :=
  { session := t.session, running := false }

/-- The grace delay elapses: every pending timeout runs and hands its result to
`onGameEnd` (lines 178-186). Returns the results delivered, oldest first. -/
def elapse (s : Session) : List GameResult × Session :=
  (s.timeouts, { s with timeouts := [] })

/-! ## Win detection (`utils/gameLogic.js` lines 1-21) -/

/-- The array `winCombinations` (lines 3-12). -/
def winCombinations : List (Nat × Nat × Nat) :=
  [(0, 1, 2), (3, 4, 5), (6, 7, 8), (0, 3, 6), (1, 4, 7), (2, 5, 8), (0, 4, 8), (2, 4, 6)]

/-- The test of line 16 for one combination `[a, b, c]`. -/
def lineWon (board : List JsVal) (combo : Nat × Nat × Nat) : Bool :=
  (boardAt board combo.1).truthy && boardAt board combo.1 == boardAt board combo.2.1 &&
    boardAt board combo.1 == boardAt board combo.2.2

/-- Function `checkWinner` (lines 2-21): the first combination that passes the
test decides. -/
def checkWinner (board : List JsVal) : JsVal :=
  match winCombinations.find? (lineWon board) with
  | some combo => boardAt board combo.1
  | none => JsVal.null

/-- Function `isBoardFull` (`utils/gameLogic.js` lines 24-26). -/
def isBoardFull (board : List JsVal) : Bool :=
  board.all (fun cell => cell != JsVal.null)

/-! ## Reading a MOVE payload -/

/-- Value of a list of decimal digit characters, most significant first. -/
def digitsValue (digits : List Char) : Nat :=
  digits.foldl (fun acc c => 10 * acc + (c.toNat - 48)) 0

/-- The characters before the number in a MOVE payload. -/
def movePrefix : List Char :=
  "\x7b\"position\":".data

/-- Decoder for MOVE payloads: the number `p` when the text is exactly
`\x7b"position":` followed by one or more decimal digits that spell `p` and a
closing brace, `none` for every other text. -/
def readMovePayload (text : String) : Option Nat :=
  if movePrefix.isPrefixOf text.data then
    match (text.data.drop movePrefix.length).reverse with
    | [] => none
    | last :: revDigits =>
      if last = Char.ofNat 125 ∧ revDigits ≠ [] ∧ revDigits.all Char.isDigit = true then
        some (digitsValue revDigits.reverse)
      else none
  else none

/-! ## What the screen renders (`GameScreen.js` lines 258-418) -/

/-- Elements of the rendered screen that take a click. -/
inductive Control where
  | cancel
  | backToHome
  | cell (index : Nat) (disabled : Bool)
  | dismissError
  deriving DecidableEq, Repr

/-- Function `renderStatus` (lines 258-308): the buttons of the status message.
`searching` shows Cancel, `opponent_left` and `error` show Back to Home, and the
default case returns `null`. -/
def renderStatus (s : Session) : List Control :=
  match s.status with
  | Status.connecting => []
  | Status.searching => [Control.cancel]
  | Status.waiting_for_players => []
  | Status.opponent_left => [Control.backToHome]
  | Status.error => [Control.backToHome]
  | Status.playing => []

/-- The clickable elements of one render (lines 310-418): the status message
alone unless `status` is `playing` (lines 310-322); otherwise one button per
board cell with its `disabled` attribute (lines 368-374), and the button of the
error toast when `error` is truthy (lines 410-415). -/
def render (nakamaRef : Option NakamaModule) (s : Session) : List Control :=
  if s.status ≠ Status.playing then renderStatus s
  else
    (List.range s.board.length).map (fun index =>
      Control.cell index
        (!isMyTurn nakamaRef s || boardAt s.board index != JsVal.null || s.gameOver)) ++
    (if s.error.truthy then [Control.dismissError] else [])

/-- Effect of a click on a rendered element. Cancel and Back to Home call the
consumer's `onBack`, which calls no setter of this component; a cell button calls
`handleCellClick(index)` unless it is disabled; the toast button calls
`setError(null)`. -/
def clickControl (nakamaRef : Option NakamaModule) (s : Session) : Control → ClickOutcome
  | Control.cancel => ClickOutcome.none s
  | Control.backToHome => ClickOutcome.none s
  | Control.cell index disabled =>
    if disabled then ClickOutcome.none s else handleCellClick nakamaRef s index
  | Control.dismissError =>
    { optimistic := { s with error := JsVal.null }, final := { s with error := JsVal.null },
      sent := [] }

/-! ## Properties of messages and events used to state the claims -/

/-- The payload carries a symbol assignment: `data.yourSymbol` is truthy. -/
def Message.carriesSymbol (m : Message) : Bool :=
  match m.data with
  | none => false
  | some data => data.yourSymbol.truthy

/-- The symbol a message assigns, if it reaches a `setMySymbol` call: a truthy
`yourSymbol` in a PLAYER_JOIN, or in a GAME_STATE of a recognised kind. -/
def Message.assignedSymbol (m : Message) : Option JsVal :=
  match m.data with
  | none => none
  | some data =>
    if data.yourSymbol.truthy = true ∧
        (m.opCode = OpCode.PLAYER_JOIN ∨
          (m.opCode = OpCode.GAME_STATE ∧
            (data.type = JsVal.str "game_start" ∨ data.type = JsVal.str "game_state"))) then
      some data.yourSymbol
    else none

/-- A board carried by the payload, if any, has nine cells. -/
def Message.boardHasNineCells (m : Message) : Bool :=
  match m.data with
  | none => true
  | some data =>
    match data.board with
    | none => true
    | some b => b.length == 9

/-- The event is a message that carries a symbol assignment. -/
def Event.carriesSymbol : Event → Bool
  | Event.matchData m => m.carriesSymbol
  | _ => false

/-- The symbol assigned by the event, if it is a message that assigns one. -/
def Event.assignedSymbol : Event → Option JsVal
  | Event.matchData m => m.assignedSymbol
  | _ => none

/-- The event is a GAME_STATE or GAME_OVER message. -/
def Event.isStateOrOver : Event → Bool
  | Event.matchData m => m.opCode == OpCode.GAME_STATE || m.opCode == OpCode.GAME_OVER
  | _ => false

/-- Every board the event carries has nine cells. -/
def Event.boardHasNineCells : Event → Bool
  | Event.matchData m => m.boardHasNineCells
  | _ => true

/-! ## Concrete sessions used in the examples below -/

/-- Module state of player `me`, connected and joined to match `m1`. -/
def exNakama : Nakama :=
  { socket := some { sendMatchStateThrows := false }, matchId := JsVal.str "m1",
    currentPlayerId := JsVal.str "me" }

/-- Module state of player `me` with no socket. -/
def exNoSocket : Nakama :=
  { socket := none, matchId := JsVal.str "m1", currentPlayerId := JsVal.str "me" }

/-- A module object whose `sendMove` promise rejects. -/
def exRejecting : NakamaModule :=
  { getPlayerId := JsVal.str "me", sendMove := fun _ => (Awaited.rejected, []) }

/-- PLAYER_JOIN that assigns the symbol `v`. -/
def exJoin (v : JsVal) : Message :=
  { opCode := 6, senderId := JsVal.null, data := some { Payload.empty with yourSymbol := v } }

/-- GAME_STATE of kind `game_state` with board `b`, turn holder `me`, turn symbol `X`. -/
def exState (b : List JsVal) : Message :=
  { opCode := 1, senderId := JsVal.null,
    data := some { Payload.empty with
      type := JsVal.str "game_state", board := some b, currentTurn := JsVal.str "me",
      currentSymbol := JsVal.str "X", players := some [("me", "ann"), ("op", "bob")] } }

/-- GAME_OVER with winner `w`, winning line `line` and no board. -/
def exOver (w : JsVal) (line : List Nat) : Message :=
  { opCode := 3, senderId := JsVal.null,
    data := some { Payload.empty with winner := w, winningLine := some line } }

/-- Session of `me` playing `X` on an empty board, `me` to move. -/
def exPlaying : Session :=
  run (Captured.firstRender "classic") Session.initial
    [Event.matchData (exJoin (JsVal.str "X")), Event.matchData (exState emptyBoard)]

/-- The session `exPlaying` after the opponent has left. -/
def exLeft : Session :=
  run (Captured.firstRender "classic") exPlaying [Event.presence [] ["op"]]

/-- The session `exPlaying` after a GAME_OVER won by `X` on the line 0-1-2. -/
def exFinished : Session :=
  run (Captured.firstRender "classic") exPlaying
    [Event.matchData (exOver (JsVal.str "X") [0, 1, 2])]

/-- Timed session after a matched event: `me` plays `X` and holds the turn, and
the opponent has left. -/
def exMatchedLeft : Session :=
  run (Captured.firstRender "timed") Session.initial
    [Event.matched (JsVal.str "m1"), Event.matchData (exJoin (JsVal.str "X")),
     Event.matchData (exState emptyBoard), Event.presence [] ["op"]]

/-- Board with the row 0-1-2 held by `X` and two cells held by `O`. -/
def exWonBoard : List JsVal :=
  [JsVal.str "X", JsVal.str "X", JsVal.str "X", JsVal.str "O", JsVal.str "O",
   JsVal.null, JsVal.null, JsVal.null, JsVal.null]

/-- Session of `me`, assigned `X`, after the board `exWonBoard` and a GAME_OVER
won by `X` that carries no board. -/
def exWon : Session :=
  run (Captured.firstRender "classic") Session.initial
    [Event.matchData (exJoin (JsVal.str "X")), Event.matchData (exState exWonBoard),
     Event.matchData (exOver (JsVal.str "X") [0, 1, 2])]

/-- Board with the row 0-1-2 held by `X` and the row 3-4-5 held by `O`. -/
def exTwoLines : List JsVal :=
  [JsVal.str "X", JsVal.str "X", JsVal.str "X", JsVal.str "O", JsVal.str "O",
   JsVal.str "O", JsVal.null, JsVal.null, JsVal.null]

/-- Module state of player `me` whose socket throws in `sendMatchState`. -/
def exThrowing : Nakama :=
  { socket := some { sendMatchStateThrows := true }, matchId := JsVal.str "m1",
    currentPlayerId := JsVal.str "me" }

/-- A parser that accepts the two bytes of `\x7b\x7d` and rejects everything else. -/
def exParse : List Nat → Option (Option Payload) :=
  fun bytes => if bytes = [123, 125] then some (some Payload.empty) else none

/-- Session that received a GAME_STATE naming `me` as turn holder, with no
symbol assignment and no PLAYER_JOIN before it. -/
def exUnassigned : Session :=
  run (Captured.firstRender "classic") Session.initial
    [Event.matchData (exState emptyBoard)]

/-- Session whose PLAYER_JOIN assigned the value `Z`, then playing with `me` to
move. -/
def exOddSymbol : Session :=
  run (Captured.firstRender "classic") Session.initial
    [Event.matchData (exJoin (JsVal.str "Z")), Event.matchData (exState emptyBoard)]

/-- Full board without a completed line. -/
def exDrawBoard : List JsVal :=
  [JsVal.str "X", JsVal.str "O", JsVal.str "X", JsVal.str "X", JsVal.str "O",
   JsVal.str "O", JsVal.str "O", JsVal.str "X", JsVal.str "X"]

/-! ## Helper lemmas -/

theorem boardAt_set_self (board : List JsVal) (i : Nat) (v : JsVal)
    (h : boardAt board i = JsVal.null) : boardAt (board.set i v) i = v := by
  unfold boardAt at *
  by_cases hi : i < board.length
  · simp [List.getElem?_set_self, hi]
  · have hnone : board[i]? = none := List.getElem?_eq_none (Nat.le_of_not_lt hi)
    simp [hnone] at h

theorem boardAt_set_other (board : List JsVal) (i j : Nat) (v : JsVal) (h : j ≠ i) :
    boardAt (board.set i v) j = boardAt board j := by
  unfold boardAt
  simp [List.getElem?_set_ne (Ne.symm h)]

theorem handleCellClick_accepted (nakama : NakamaModule) (s : Session) (i : Nat)
    (hturn : isMyTurn (some nakama) s = true) (hcell : boardAt s.board i = JsVal.null)
    (hover : s.gameOver = false) :
    handleCellClick (some nakama) s i = tryMove s i (nakama.sendMove i) := by
  simp [handleCellClick, hturn, hcell, hover]

theorem handleCellClick_refused (nakamaRef : Option NakamaModule) (s : Session) (i : Nat)
    (h : isMyTurn nakamaRef s = false ∨ boardAt s.board i ≠ JsVal.null ∨ s.gameOver = true) :
    handleCellClick nakamaRef s i = ClickOutcome.none s := by
  unfold handleCellClick
  rcases h with h | h | h
  · simp [h]
  · simp [h]
  · simp [h]

theorem tryMove_final_cases (s : Session) (i : Nat) (send : Awaited × List MatchState) :
    (tryMove s i send).final = { s with board := s.board.set i s.mySymbol } ∨
    (tryMove s i send).final = { s with error := JsVal.str "Failed to send move" } := by
  unfold tryMove
  rcases send with ⟨a, l⟩
  rcases a with b | _
  · cases b
    · exact Or.inr rfl
    · exact Or.inl rfl
  · exact Or.inr rfl

theorem handleCellClick_final_cases (nakamaRef : Option NakamaModule) (s : Session)
    (i : Nat) :
    (handleCellClick nakamaRef s i).final = s ∨
    ((handleCellClick nakamaRef s i).final = { s with board := s.board.set i s.mySymbol } ∧
      s.gameOver = false) ∨
    (handleCellClick nakamaRef s i).final =
      { s with error := JsVal.str "Failed to send move" } := by
  unfold handleCellClick
  split
  · exact Or.inl rfl
  · rename_i hguard
    have hover : s.gameOver = false := by
      cases h : s.gameOver
      · rfl
      · simp [h] at hguard
    cases nakamaRef with
    | none => exact Or.inl rfl
    | some nakama =>
      rcases tryMove_final_cases s i (nakama.sendMove i) with h | h
      · exact Or.inr (Or.inl ⟨h, hover⟩)
      · exact Or.inr (Or.inr h)

theorem handleMatchData_mySymbol (c : Captured) (s : Session) (m : Message) :
    (handleMatchData c s m).mySymbol = m.assignedSymbol.getD s.mySymbol := by
  unfold handleMatchData Message.assignedSymbol
  rcases m with ⟨op, sender, data⟩
  cases data with
  | none =>
    by_cases h6 : op = OpCode.PLAYER_JOIN
    · simp [h6]
    · by_cases h1 : op = OpCode.GAME_STATE
      · simp [h1]
      · by_cases h3 : op = OpCode.GAME_OVER
        · simp [h3, handleGameOver]
        · by_cases h4 : op = OpCode.ERROR
          · simp [h4]
          · simp [h6, h1, h3, h4]
  | some d =>
    by_cases h6 : op = OpCode.PLAYER_JOIN
    · cases hy : d.yourSymbol.truthy <;> simp [h6, hy]
    · by_cases h1 : op = OpCode.GAME_STATE
      · by_cases hk : d.type = JsVal.str "game_start" ∨ d.type = JsVal.str "game_state"
        · cases hy : d.yourSymbol.truthy <;> by_cases hm : c.gameMode = "timed" <;>
            simp [h1, hk, hy, hm]
        · simp [h1, hk]
      · by_cases h3 : op = OpCode.GAME_OVER
        · cases hl : d.winningLine <;> cases hb : d.board <;>
            simp [h6, h1, h3, handleGameOver, hl, hb]
        · by_cases h4 : op = OpCode.ERROR
          · simp [h6, h1, h3, h4]
          · simp [h6, h1, h3, h4]

theorem step_mySymbol (c : Captured) (s : Session) (e : Event) :
    (step c s e).mySymbol = e.assignedSymbol.getD s.mySymbol := by
  cases e with
  | matchData m => exact handleMatchData_mySymbol c s m
  | presence joins leaves =>
    simp only [step, handlePresenceChange, Event.assignedSymbol]
    split <;> rfl
  | click nakamaRef i =>
    simp only [step, Event.assignedSymbol]
    rcases handleCellClick_final_cases nakamaRef s i with h | ⟨h, _⟩ | h <;> rw [h] <;> rfl
  | matched matchId => rfl
  | tick => rfl

theorem assignedSymbol_of_not_carries (e : Event) (h : e.carriesSymbol = false) :
    e.assignedSymbol = none := by
  cases e with
  | matchData m =>
    rcases m with ⟨op, sender, data⟩
    cases data with
    | none => rfl
    | some d =>
      simp only [Event.carriesSymbol, Message.carriesSymbol] at h
      simp [Event.assignedSymbol, Message.assignedSymbol, h]
  | presence joins leaves => rfl
  | click nakamaRef i => rfl
  | matched matchId => rfl
  | tick => rfl

theorem run_cons (c : Captured) (s : Session) (e : Event) (es : List Event) :
    run c s (e :: es) = run c (step c s e) es := rfl

theorem run_mySymbol_of_no_assignment (c : Captured) (s : Session) (events : List Event)
    (h : ∀ e ∈ events, e.carriesSymbol = false) :
    (run c s events).mySymbol = s.mySymbol := by
  induction events generalizing s with
  | nil => rfl
  | cons e es ih =>
    rw [run_cons, ih (step c s e) (fun e' he' => h e' (List.mem_cons_of_mem e he')),
      step_mySymbol, assignedSymbol_of_not_carries e (h e (List.mem_cons_self e es))]
    rfl

theorem getLast_cons_getD (v d : JsVal) (l : List JsVal) :
    (v :: l).getLast?.getD d = l.getLast?.getD v := by
  cases l with
  | nil => rfl
  | cons a t =>
    rw [List.getLast?_cons_cons]
    cases h : (a :: t).getLast? with
    | none => simp at h
    | some x => rfl

theorem handleMatchData_board (c : Captured) (s : Session) (m : Message) :
    (handleMatchData c s m).board = s.board ∨
    (handleMatchData c s m).board = emptyBoard ∨
    ∃ d b, m.data = some d ∧ d.board = some b ∧ (handleMatchData c s m).board = b := by
  unfold handleMatchData
  rcases m with ⟨op, sender, data⟩
  cases data with
  | none =>
    by_cases h6 : op = OpCode.PLAYER_JOIN
    · simp [h6]
    · by_cases h1 : op = OpCode.GAME_STATE
      · simp [h1]
      · by_cases h3 : op = OpCode.GAME_OVER
        · simp [h3, handleGameOver]
        · by_cases h4 : op = OpCode.ERROR
          · simp [h4]
          · simp [h6, h1, h3, h4]
  | some d =>
    by_cases h6 : op = OpCode.PLAYER_JOIN
    · cases hy : d.yourSymbol.truthy <;> simp [h6, hy]
    · by_cases h1 : op = OpCode.GAME_STATE
      · by_cases hk : d.type = JsVal.str "game_start" ∨ d.type = JsVal.str "game_state"
        · cases hb : d.board <;> cases hy : d.yourSymbol.truthy <;>
            by_cases hm : c.gameMode = "timed" <;> simp [h1, hk, hy, hm, hb]
        · simp [h1, hk]
      · by_cases h3 : op = OpCode.GAME_OVER
        · cases hl : d.winningLine <;> cases hb : d.board <;>
            simp [h6, h1, h3, handleGameOver, hl, hb]
        · by_cases h4 : op = OpCode.ERROR
          · simp [h6, h1, h3, h4]
          · simp [h6, h1, h3, h4]

theorem handleMatchData_board_of_other (c : Captured) (s : Session) (m : Message)
    (h1 : m.opCode ≠ OpCode.GAME_STATE) (h3 : m.opCode ≠ OpCode.GAME_OVER) :
    (handleMatchData c s m).board = s.board := by
  rcases m with ⟨op, sender, data⟩
  simp only at h1 h3
  unfold handleMatchData
  by_cases h6 : op = OpCode.PLAYER_JOIN
  · cases data with
    | none => simp [h6]
    | some d => cases hy : d.yourSymbol.truthy <;> simp [h6, hy]
  · by_cases h4 : op = OpCode.ERROR
    · cases data <;> simp [h4]
    · simp [h6, h1, h3, h4]

theorem step_board_length (c : Captured) (s : Session) (e : Event)
    (he : e.isStateOrOver = true → e.boardHasNineCells = true) (hs : s.board.length = 9) :
    (step c s e).board.length = 9 := by
  cases e with
  | matchData m =>
    simp only [step]
    by_cases hso : (Event.matchData m).isStateOrOver = true
    · have hnine := he hso
      rcases handleMatchData_board c s m with h | h | ⟨d, b, hd, hb, h⟩
      · rw [h]; exact hs
      · rw [h]; rfl
      · rw [h]
        simpa [Event.boardHasNineCells, Message.boardHasNineCells, hd, hb] using hnine
    · simp only [Event.isStateOrOver, Bool.or_eq_true, beq_iff_eq, not_or] at hso
      rw [handleMatchData_board_of_other c s m hso.1 hso.2]
      exact hs
  | presence joins leaves =>
    simp only [step, handlePresenceChange]
    split <;> exact hs
  | click nakamaRef i =>
    simp only [step]
    rcases handleCellClick_final_cases nakamaRef s i with h | ⟨h, _⟩ | h
    · rw [h]; exact hs
    · rw [h]; simpa using hs
    · rw [h]; exact hs
  | matched matchId => exact hs
  | tick => exact hs

theorem intervalTick_iterate (s : Session) (h : s.timeRemaining = 30) (n : Nat) :
    (intervalTick^[n]) { session := s, running := true } =
      { session := { s with timeRemaining := max (30 - (n : Int)) 0 },
        running := decide (n < 30) } := by
  induction n with
  | zero =>
    cases s
    simp only [Session.timeRemaining] at h
    subst h
    rfl
  | succ k ih =>
    rw [Function.iterate_succ_apply', ih]
    unfold intervalTick timerTick
    by_cases hk : k < 30
    · have h1 : max (30 - (k : Int)) 0 = 30 - (k : Int) := by omega
      by_cases hlast : k = 29
      · subst hlast
        simp
      · have h2 : ¬ (30 - (k : Int) ≤ 1) := by omega
        have h3 : max (30 - ((k : Int) + 1)) 0 = 30 - (k : Int) - 1 := by omega
        have h4 : k + 1 < 30 := by omega
        simp [hk, h1, h2, h3, h4]
    · have h1 : max (30 - (k : Int)) 0 = 0 := by omega
      have h3 : max (30 - ((k : Int) + 1)) 0 = 0 := by omega
      have h4 : ¬ (k + 1 < 30) := by omega
      simp [hk, h1, h3, h4]

theorem digitChar_lt_ten (k : Nat) (h : k < 10) :
    (Nat.digitChar k).isDigit = true ∧ (Nat.digitChar k).toNat - 48 = k := by
  interval_cases k <;> decide

theorem toDigitsCore_spec (fuel : Nat) :
    ∀ (n : Nat) (ds : List Char), n < fuel →
      ∃ front, Nat.toDigitsCore 10 fuel n ds = front ++ ds ∧ front ≠ [] ∧
        front.all Char.isDigit = true ∧ digitsValue front = n := by
  induction fuel with
  | zero => intro n ds h; omega
  | succ fuel ih =>
    intro n ds h
    have hd := digitChar_lt_ten (n % 10) (Nat.mod_lt n (by decide))
    rw [Nat.toDigitsCore]
    by_cases h0 : n / 10 = 0
    · refine ⟨[Nat.digitChar (n % 10)], ?_, ?_, ?_, ?_⟩
      · simp [h0]
      · simp
      · simp [hd.1]
      · simp only [digitsValue, List.foldl, hd.2]
        omega
    · have hlt : n / 10 < fuel := by omega
      obtain ⟨front, hfront, hne, hall, hval⟩ :=
        ih (n / 10) (Nat.digitChar (n % 10) :: ds) hlt
      refine ⟨front ++ [Nat.digitChar (n % 10)], ?_, ?_, ?_, ?_⟩
      · simp [h0, hfront]
      · simp
      · simp [List.all_append, hall, hd.1]
      · unfold digitsValue at hval ⊢
        rw [List.foldl_append, hval]
        simp [hd.2]
        omega

theorem readMovePayload_movePayload (p : Nat) :
    readMovePayload (movePayload p) = some p := by
  obtain ⟨front, hfront, hne, hall, hval⟩ :=
    toDigitsCore_spec (p + 1) p [] (Nat.lt_succ_self p)
  have hdata : (movePayload p).data = movePrefix ++ (front ++ [Char.ofNat 125]) := by
    have hrepr : (toString p).data = front := by
      show (Nat.repr p).data = front
      simp [Nat.repr, Nat.toDigits, hfront, List.asString]
    unfold movePayload movePrefix
    simp [String.data_append, hrepr]
  unfold readMovePayload
  rw [hdata]
  have hpre : movePrefix.isPrefixOf (movePrefix ++ (front ++ [Char.ofNat 125])) = true := by
    simp
  simp [hpre, hne, hall, hval, List.all_reverse]

theorem lineWon_of_cells (board : List JsVal) (combo : Nat × Nat × Nat) (v : JsVal)
    (h1 : boardAt board combo.1 = v) (h2 : boardAt board combo.2.1 = v)
    (h3 : boardAt board combo.2.2 = v) (hv : v.truthy = true) :
    lineWon board combo = true := by
  simp [lineWon, h1, h2, h3, hv]

theorem run_mySymbol_last (c : Captured) (s : Session) (events : List Event) :
    (run c s events).mySymbol =
      (events.filterMap Event.assignedSymbol).getLast?.getD s.mySymbol := by
  induction events generalizing s with
  | nil => rfl
  | cons e es ih =>
    rw [run_cons, ih (step c s e), step_mySymbol]
    cases he : e.assignedSymbol with
    | none => simp [List.filterMap_cons, he]
    | some v => simp [List.filterMap_cons, he, getLast_cons_getD]

theorem tryMove_optimistic (s : Session) (i : Nat) (send : Awaited × List MatchState) :
    (tryMove s i send).optimistic = { s with board := s.board.set i s.mySymbol } := by
  unfold tryMove
  rcases send with ⟨a, l⟩
  rcases a with b | _
  · cases b <;> rfl
  · rfl

theorem handleCellClick_sent_optimistic (nakamaRef : Option NakamaModule) (s : Session)
    (i : Nat) (hsent : (handleCellClick nakamaRef s i).sent ≠ []) :
    boardAt (handleCellClick nakamaRef s i).optimistic.board i = s.mySymbol := by
  by_cases hturn : isMyTurn nakamaRef s = true
  · by_cases hcell : boardAt s.board i = JsVal.null
    · by_cases hover : s.gameOver = false
      · cases nakamaRef with
        | none => simp [isMyTurn] at hturn
        | some nakama =>
          rw [handleCellClick_accepted nakama s i hturn hcell hover, tryMove_optimistic]
          exact boardAt_set_self s.board i s.mySymbol hcell
      · have hover' : s.gameOver = true := by simpa using hover
        rw [handleCellClick_refused nakamaRef s i (Or.inr (Or.inr hover'))] at hsent
        exact absurd rfl hsent
    · rw [handleCellClick_refused nakamaRef s i (Or.inr (Or.inl hcell))] at hsent
      exact absurd rfl hsent
  · have hturn' : isMyTurn nakamaRef s = false := by simpa using hturn
    rw [handleCellClick_refused nakamaRef s i (Or.inl hturn')] at hsent
    exact absurd rfl hsent

theorem lineWon_iff (board : List JsVal) (combo : Nat × Nat × Nat) :
    lineWon board combo = true ↔
      (boardAt board combo.1).truthy = true ∧
      boardAt board combo.1 = boardAt board combo.2.1 ∧
      boardAt board combo.1 = boardAt board combo.2.2 := by
  simp [lineWon, and_assoc]

theorem render_of_not_playing (nakamaRef : Option NakamaModule) (s : Session)
    (h : s.status ≠ Status.playing) :
    ∀ control ∈ render nakamaRef s,
      control = Control.cancel ∨ control = Control.backToHome := by
  intro control hmem
  unfold render at hmem
  rw [if_pos h] at hmem
  unfold renderStatus at hmem
  cases hs : s.status <;> rw [hs] at hmem <;> simp at hmem
  · exact Or.inl hmem
  · exact Or.inr hmem
  · exact Or.inr hmem

theorem handleMatchData_gameOver_of_over (c : Captured) (s : Session) (sender : JsVal)
    (data : Option Payload) :
    (handleMatchData c s { opCode := 3, senderId := sender, data := data }).gameOver = true := by
  unfold handleMatchData handleGameOver
  cases data with
  | none => simp
  | some d => cases hl : d.winningLine <;> cases hb : d.board <;> simp [hl, hb]

theorem handleMatchData_gameOver_mono (c : Captured) (s : Session) (m : Message)
    (hover : s.gameOver = true) : (handleMatchData c s m).gameOver = true := by
  rcases m with ⟨op, sender, data⟩
  by_cases h3 : op = OpCode.GAME_OVER
  · subst h3
    exact handleMatchData_gameOver_of_over c s sender data
  · unfold handleMatchData
    by_cases h6 : op = OpCode.PLAYER_JOIN
    · cases data with
      | none => simp [h6, hover]
      | some d => cases hy : d.yourSymbol.truthy <;> simp [h6, hy, hover]
    · by_cases h1 : op = OpCode.GAME_STATE
      · cases data with
        | none => simp [h1, hover]
        | some d =>
          by_cases hk : d.type = JsVal.str "game_start" ∨ d.type = JsVal.str "game_state"
          · cases hy : d.yourSymbol.truthy <;> by_cases hm : c.gameMode = "timed" <;>
              simp [h1, hk, hy, hm, hover]
          · simp [h1, hk, hover]
      · by_cases h4 : op = OpCode.ERROR
        · cases data with
          | none => simp [h4, hover]
          | some d => simp [h4, hover]
        · simp [h6, h1, h3, h4, hover]

theorem step_gameOver_mono (c : Captured) (s : Session) (e : Event)
    (hover : s.gameOver = true) : (step c s e).gameOver = true := by
  cases e with
  | matchData m => exact handleMatchData_gameOver_mono c s m hover
  | presence joins leaves =>
    simp only [step, handlePresenceChange]
    split <;> exact hover
  | click nakamaRef i =>
    simp only [step]
    rw [handleCellClick_refused nakamaRef s i (Or.inr (Or.inr hover))]
    exact hover
  | matched matchId => exact hover
  | tick => exact hover

theorem run_gameOver_mono (c : Captured) (s : Session) (events : List Event)
    (hover : s.gameOver = true) : (run c s events).gameOver = true := by
  induction events generalizing s with
  | nil => exact hover
  | cons e es ih =>
    rw [run_cons]
    exact ih (step c s e) (step_gameOver_mono c s e hover)

theorem handleMatchData_over_fields (c : Captured) (s : Session) (sender : JsVal)
    (d : Payload) :
    (handleMatchData c s { opCode := 3, senderId := sender, data := some d }).winner =
      d.winner ∧
    (handleMatchData c s { opCode := 3, senderId := sender, data := some d }).board =
      d.board.getD s.board ∧
    (∀ line, d.winningLine = some line →
      (handleMatchData c s { opCode := 3, senderId := sender, data := some d }).winningLine =
        some line) ∧
    (d.winningLine = none →
      (handleMatchData c s { opCode := 3, senderId := sender, data := some d }).winningLine =
        s.winningLine) := by
  unfold handleMatchData handleGameOver
  cases hl : d.winningLine <;> cases hb : d.board <;> simp [hl, hb]

theorem handleMatchData_state_board (c : Captured) (s : Session) (sender : JsVal)
    (d : Payload)
    (hkind : d.type = JsVal.str "game_start" ∨ d.type = JsVal.str "game_state") :
    (handleMatchData c s { opCode := 1, senderId := sender, data := some d }).board =
      d.board.getD emptyBoard := by
  unfold handleMatchData
  cases hy : d.yourSymbol.truthy <;> by_cases hm : c.gameMode = "timed" <;>
    simp [hkind, hy, hm]

theorem run_frozen_when_over (c : Captured) (s : Session)
    (events : List Event)
    (hover : s.gameOver = true)
    (hevents : ∀ e ∈ events, e.isStateOrOver = false) :
    (run c s events).board = s.board ∧
    (run c s events).winner = s.winner ∧
    (run c s events).winningLine = s.winningLine ∧
    (run c s events).gameOver = true := by
  induction events generalizing s with
  | nil => exact ⟨rfl, rfl, rfl, hover⟩
  | cons e es ih =>
    rw [run_cons]
    have he : e.isStateOrOver = false := hevents e (List.mem_cons_self e es)
    have hstep : (step c s e).board = s.board ∧ (step c s e).winner = s.winner ∧
        (step c s e).winningLine = s.winningLine ∧ (step c s e).gameOver = true := by
      cases e with
      | matchData m =>
        simp only [Event.isStateOrOver, Bool.or_eq_false_iff, beq_eq_false_iff_ne, ne_eq] at he
        rcases m with ⟨op, sender, data⟩
        simp only [step, handleMatchData]
        have h1 : ¬ op = OpCode.GAME_STATE := he.1
        have h3 : ¬ op = OpCode.GAME_OVER := he.2
        by_cases h6 : op = OpCode.PLAYER_JOIN
        · cases data with
          | none => simp [h6, hover]
          | some d => cases hy : d.yourSymbol.truthy <;> simp [h6, hy, hover]
        · by_cases h4 : op = OpCode.ERROR
          · cases data with
            | none => simp [h4, hover]
            | some d => simp [h4, hover]
          · simp [h6, h1, h3, h4, hover]
      | presence joins leaves =>
        simp only [step, handlePresenceChange]
        split
        · exact ⟨rfl, rfl, rfl, hover⟩
        · exact ⟨rfl, rfl, rfl, hover⟩
      | click nakamaRef i =>
        simp only [step]
        rw [handleCellClick_refused nakamaRef s i (Or.inr (Or.inr hover))]
        exact ⟨rfl, rfl, rfl, hover⟩
      | matched matchId => exact ⟨rfl, rfl, rfl, hover⟩
      | tick => exact ⟨rfl, rfl, rfl, hover⟩
    have hrest := ih (step c s e) hstep.2.2.2
      (fun e' he' => hevents e' (List.mem_cons_of_mem e he'))
    exact ⟨hrest.1.trans hstep.1, hrest.2.1.trans hstep.2.1,
      hrest.2.2.1.trans hstep.2.2.1, hrest.2.2.2⟩

/-! ## Local moves (claims C1-C4) -/

/-- C1, as stated, fails: the session is playing, the turn holder is the local
player, cell 4 is empty and the game is not over, but the service module has no
socket, so `sendMove` returns at its first guard and no MOVE message is sent
(and the optimistic write is rolled back). -/
theorem C1_counterexample :
    exPlaying.status = Status.playing ∧
    exPlaying.currentTurn = exNoSocket.currentPlayerId ∧
    boardAt exPlaying.board 4 = JsVal.null ∧
    exPlaying.gameOver = false ∧
    (handleCellClick (some exNoSocket.module) exPlaying 4).sent = [] ∧
    (handleCellClick (some exNoSocket.module) exPlaying 4).final.board = exPlaying.board := by
  decide

/-- C1, amended: when the turn holder equals the local player id, `board[i]` is
empty and the game is not over, `handleCellClick(i)` immediately sets `board[i]`
to `mySymbol` and leaves every other cell unchanged; when the service module
holds a socket and a match id and `sendMatchState` does not throw, exactly one
message is sent, with op code 2 and payload `{"position":i}`, and the optimistic
board stays; otherwise no message is sent. Neither the status nor the range of
`i` is needed. -/
theorem C1_accepted_click_writes_and_sends (n : Nakama) (s : Session) (i : Nat)
    (hturn : s.currentTurn = n.currentPlayerId)
    (hcell : boardAt s.board i = JsVal.null)
    (hover : s.gameOver = false) :
    boardAt (handleCellClick (some n.module) s i).optimistic.board i = s.mySymbol ∧
    (∀ j, j ≠ i →
      boardAt (handleCellClick (some n.module) s i).optimistic.board j = boardAt s.board j) ∧
    (handleCellClick (some n.module) s i).optimistic.board.length = s.board.length ∧
    (∀ socket, n.socket = some socket → socket.sendMatchStateThrows = false →
      n.matchId.truthy = true →
      (handleCellClick (some n.module) s i).sent =
        [{ matchId := n.matchId, opCode := OpCode.MOVE, data := movePayload i }] ∧
      (handleCellClick (some n.module) s i).final =
        (handleCellClick (some n.module) s i).optimistic) ∧
    ((n.socket = none ∨ n.matchId.truthy = false ∨
        ∃ socket, n.socket = some socket ∧ socket.sendMatchStateThrows = true) →
      (handleCellClick (some n.module) s i).sent = []) := by
  have hmine : isMyTurn (some n.module) s = true := by
    simp [isMyTurn, Nakama.module, hturn]
  rw [handleCellClick_accepted n.module s i hmine hcell hover]
  have hopt : ∀ send, (tryMove s i send).optimistic = { s with board := s.board.set i s.mySymbol } := by
    intro send
    unfold tryMove
    rcases send with ⟨a, l⟩
    rcases a with b | _
    · cases b <;> rfl
    · rfl
  refine ⟨?_, ?_, ?_, ?_, ?_⟩
  · rw [hopt]
    exact boardAt_set_self s.board i s.mySymbol hcell
  · intro j hj
    rw [hopt]
    exact boardAt_set_other s.board i j s.mySymbol hj
  · rw [hopt]
    simp
  · intro socket hs hthrow hid
    simp [tryMove, Nakama.module, sendMove, hs, hthrow, hid]
  · intro h
    rcases h with h | h | ⟨socket, hs, hthrow⟩
    · simp [tryMove, Nakama.module, sendMove, h]
    · cases hs : n.socket <;> simp [tryMove, Nakama.module, sendMove, h, hs]
    · cases hid : n.matchId.truthy <;> simp [tryMove, Nakama.module, sendMove, hs, hthrow, hid]

/-- C1 witness: `me` plays `X` at cell 4 of the empty board with a joined socket. -/
theorem C1_accepted_click_writes_and_sends_witness :
    (exPlaying.currentTurn = exNakama.currentPlayerId ∧
      boardAt exPlaying.board 4 = JsVal.null ∧ exPlaying.gameOver = false) ∧
    boardAt (handleCellClick (some exNakama.module) exPlaying 4).optimistic.board 4 =
      JsVal.str "X" ∧
    (handleCellClick (some exNakama.module) exPlaying 4).sent =
      [{ matchId := JsVal.str "m1", opCode := 2, data := movePayload 4 }] :=
  ⟨by decide,
   (C1_accepted_click_writes_and_sends exNakama exPlaying 4 (by decide) (by decide)
      (by decide)).1,
   ((C1_accepted_click_writes_and_sends exNakama exPlaying 4 (by decide) (by decide)
      (by decide)).2.2.2.1 { sendMatchStateThrows := false } rfl rfl (by decide)).1⟩

/-- C2: at an accepted click (local turn, `board[i]` empty, game not over), if
the awaited `sendMove(i)` yields anything but `true` (it returns `false`, or the
promise rejects), the board after `handleCellClick(i)` equals the board before
the click and `error` is the non-empty text `Failed to send move`. -/
theorem C2_failed_send_rolls_back (nakama : NakamaModule) (s : Session) (i : Nat)
    (hturn : isMyTurn (some nakama) s = true)
    (hcell : boardAt s.board i = JsVal.null)
    (hover : s.gameOver = false)
    (hfail : (nakama.sendMove i).1 ≠ Awaited.resolved true) :
    (handleCellClick (some nakama) s i).final.board = s.board ∧
    (handleCellClick (some nakama) s i).final.error = JsVal.str "Failed to send move" ∧
    (handleCellClick (some nakama) s i).final.error.truthy = true := by
  rw [handleCellClick_accepted nakama s i hturn hcell hover]
  unfold tryMove
  rcases hsend : nakama.sendMove i with ⟨a, l⟩
  rw [hsend] at hfail
  rcases a with b | _
  · cases b
    · exact ⟨rfl, rfl, by simp [JsVal.truthy]⟩
    · exact absurd rfl hfail
  · exact ⟨rfl, rfl, by simp [JsVal.truthy]⟩

/-- C2 witness: the promise of `sendMove(4)` rejects on the playing session. -/
theorem C2_failed_send_rolls_back_witness :
    (handleCellClick (some exRejecting) exPlaying 4).final.board = exPlaying.board ∧
    (handleCellClick (some exRejecting) exPlaying 4).final.error =
      JsVal.str "Failed to send move" ∧
    (handleCellClick (some exRejecting) exPlaying 4).final.error.truthy = true :=
  C2_failed_send_rolls_back exRejecting exPlaying 4 (by decide) (by decide) (by decide)
    (by decide)

/-- C3: when it is not the local turn, or `board[i]` is not `null`, or the game
is over, `handleCellClick(i)` leaves the whole session as it was, at once and
on completion, and sends nothing. -/
theorem C3_refused_click_is_noop (nakamaRef : Option NakamaModule) (s : Session) (i : Nat)
    (h : isMyTurn nakamaRef s = false ∨ boardAt s.board i ≠ JsVal.null ∨ s.gameOver = true) :
    (handleCellClick nakamaRef s i).optimistic = s ∧
    (handleCellClick nakamaRef s i).final = s ∧
    (handleCellClick nakamaRef s i).sent = [] := by
  rw [handleCellClick_refused nakamaRef s i h]
  exact ⟨rfl, rfl, rfl⟩

/-- C3 witness: the opponent holds the turn, so a click at the empty cell 4
changes nothing and sends nothing. -/
theorem C3_refused_click_is_noop_witness :
    isMyTurn (some exNakama.module) { exPlaying with currentTurn := JsVal.str "op" } = false ∧
    (handleCellClick (some exNakama.module)
      { exPlaying with currentTurn := JsVal.str "op" } 4).final =
      { exPlaying with currentTurn := JsVal.str "op" } ∧
    (handleCellClick (some exNakama.module)
      { exPlaying with currentTurn := JsVal.str "op" } 4).sent = [] :=
  ⟨by decide,
   (C3_refused_click_is_noop (some exNakama.module)
      { exPlaying with currentTurn := JsVal.str "op" } 4 (Or.inl (by decide))).2.1,
   (C3_refused_click_is_noop (some exNakama.module)
      { exPlaying with currentTurn := JsVal.str "op" } 4 (Or.inl (by decide))).2.2⟩

/-- C4: when `status` is not `playing` (connecting, searching,
waiting_for_players, opponent_left or error), the screen renders no cell button,
so no click reaches `handleCellClick`, whose only call site is the `onClick` of a
cell button; every element that can be clicked then (Cancel, Back to Home)
leaves the session as it was and sends nothing, also when the turn holder is the
local participant, the cell is empty and the game is not over. In any session,
a click that sends a MOVE was made with `status = playing`. -/
theorem C4_click_outside_playing (nakamaRef : Option NakamaModule) (s : Session)
    (h : s.status ≠ Status.playing) :
    (∀ i disabled, Control.cell i disabled ∉ render nakamaRef s) ∧
    (∀ control ∈ render nakamaRef s,
      (clickControl nakamaRef s control).optimistic = s ∧
      (clickControl nakamaRef s control).final = s ∧
      (clickControl nakamaRef s control).sent = []) ∧
    (∀ (s' : Session) (control : Control), control ∈ render nakamaRef s' →
      (clickControl nakamaRef s' control).sent ≠ [] → s'.status = Status.playing) := by
  refine ⟨?_, ?_, ?_⟩
  · intro i disabled hmem
    rcases render_of_not_playing nakamaRef s h _ hmem with hc | hc <;> cases hc
  · intro control hmem
    rcases render_of_not_playing nakamaRef s h control hmem with hc | hc <;>
      subst hc <;> exact ⟨rfl, rfl, rfl⟩
  · intro s' control hmem hsent
    by_contra hstatus
    rcases render_of_not_playing nakamaRef s' hstatus control hmem with hc | hc <;>
      subst hc <;> exact hsent rfl

/-- C4 witness: the opponent has left while the local player is still recorded
as turn holder, cell 4 is empty and the game is not over; the screen shows Back
to Home alone and a click on it changes and sends nothing. -/
theorem C4_click_outside_playing_witness :
    (exLeft.status = Status.opponent_left ∧
      isMyTurn (some exNakama.module) exLeft = true ∧
      boardAt exLeft.board 4 = JsVal.null ∧ exLeft.gameOver = false) ∧
    render (some exNakama.module) exLeft = [Control.backToHome] ∧
    (∀ control ∈ render (some exNakama.module) exLeft,
      (clickControl (some exNakama.module) exLeft control).optimistic = exLeft ∧
      (clickControl (some exNakama.module) exLeft control).final = exLeft ∧
      (clickControl (some exNakama.module) exLeft control).sent = []) :=
  ⟨by decide, by decide,
   (C4_click_outside_playing (some exNakama.module) exLeft (by decide)).2.1⟩

/-! ## Incoming messages and presence (claims C5-C10) -/

/-- C5: a GAME_STATE message (op code 1) of kind `game_start` or `game_state`
that carries a board, a turn holder, a truthy turn symbol and participants
replaces `board`, `currentTurn`, `currentSymbol` and `players` by the values of
the message, whatever the prior session was, and sets `status` to `playing`. -/
theorem C5_game_state_replaces (c : Captured) (s : Session) (sender : JsVal) (d : Payload)
    (b : List JsVal) (p : List (String × String))
    (hkind : d.type = JsVal.str "game_start" ∨ d.type = JsVal.str "game_state")
    (hboard : d.board = some b)
    (hsymbol : d.currentSymbol.truthy = true)
    (hplayers : d.players = some p) :
    (handleMatchData c s { opCode := 1, senderId := sender, data := some d }).board = b ∧
    (handleMatchData c s { opCode := 1, senderId := sender, data := some d }).currentTurn =
      d.currentTurn ∧
    (handleMatchData c s { opCode := 1, senderId := sender, data := some d }).currentSymbol =
      d.currentSymbol ∧
    (handleMatchData c s { opCode := 1, senderId := sender, data := some d }).players = p ∧
    (handleMatchData c s { opCode := 1, senderId := sender, data := some d }).status =
      Status.playing := by
  unfold handleMatchData
  cases hy : d.yourSymbol.truthy <;> by_cases hm : c.gameMode = "timed" <;>
    simp [hkind, hboard, hsymbol, hplayers, hy, hm, jsOr]

/-- C5 witness: the session holds the optimistic `X` at cell 4 when a GAME_STATE
with a board holding `O` at cell 0 arrives; the optimistic cell does not survive. -/
theorem C5_game_state_replaces_witness :
    (handleCellClick (some exNakama.module) exPlaying 4).final.board ≠ exPlaying.board ∧
    (handleMatchData (Captured.firstRender "classic")
      (handleCellClick (some exNakama.module) exPlaying 4).final
      { opCode := 1, senderId := JsVal.null,
        data := some { Payload.empty with
          type := JsVal.str "game_state",
          board := some (emptyBoard.set 0 (JsVal.str "O")),
          currentTurn := JsVal.str "op", currentSymbol := JsVal.str "O",
          players := some [("me", "ann"), ("op", "bob")] } }).board =
      emptyBoard.set 0 (JsVal.str "O") :=
  ⟨by decide,
   (C5_game_state_replaces (Captured.firstRender "classic")
      (handleCellClick (some exNakama.module) exPlaying 4).final JsVal.null
      { Payload.empty with
          type := JsVal.str "game_state",
          board := some (emptyBoard.set 0 (JsVal.str "O")),
          currentTurn := JsVal.str "op", currentSymbol := JsVal.str "O",
          players := some [("me", "ann"), ("op", "bob")] }
      (emptyBoard.set 0 (JsVal.str "O")) [("me", "ann"), ("op", "bob")]
      (Or.inr rfl) rfl (by decide) rfl).1⟩

/-- C6, as stated, fails: after a GAME_OVER has been processed (`gameOver` is
true, winner `X`, line 0-1-2), a further GAME_STATE replaces the board and a
further GAME_OVER replaces the winner and the winning line. -/
theorem C6_counterexample :
    exFinished.gameOver = true ∧
    (handleMatchData (Captured.firstRender "classic") exFinished
      (exState (emptyBoard.set 0 (JsVal.str "O")))).board ≠ exFinished.board ∧
    (handleMatchData (Captured.firstRender "classic") exFinished
      (exOver (JsVal.str "O") [2, 4, 6])).winner ≠ exFinished.winner ∧
    (handleMatchData (Captured.firstRender "classic") exFinished
      (exOver (JsVal.str "O") [2, 4, 6])).winningLine ≠ exFinished.winningLine := by
  decide

/-- C6, amended: every GAME_OVER message sets `gameOver`, and no later event
resets it. Once `gameOver` is set, no sequence of local clicks, presence events,
matched events, timer ticks and incoming messages with an op code other than
GAME_STATE (1) and GAME_OVER (3) changes `board`, `winner` or `winningLine`. A
later GAME_STATE of kind `game_start` or `game_state` still replaces the board
by the payload's board (nine empty cells when it carries none), and a later
GAME_OVER with a payload object still sets `winner` to the payload's winner, and
`winningLine` and `board` to the payload's when it carries them. -/
theorem C6_outcome_frozen_except_state_and_over (c : Captured) (s : Session)
    (events : List Event)
    (hover : s.gameOver = true)
    (hevents : ∀ e ∈ events, e.isStateOrOver = false) :
    (run c s events).board = s.board ∧
    (run c s events).winner = s.winner ∧
    (run c s events).winningLine = s.winningLine ∧
    (run c s events).gameOver = true ∧
    (∀ (prior : Session) (sender : JsVal) (data : Option Payload),
      (handleMatchData c prior
        { opCode := 3, senderId := sender, data := data }).gameOver = true) ∧
    (∀ later : List Event, (run c s later).gameOver = true) ∧
    (∀ (sender : JsVal) (d : Payload),
      (d.type = JsVal.str "game_start" ∨ d.type = JsVal.str "game_state") →
      (handleMatchData c (run c s events)
        { opCode := 1, senderId := sender, data := some d }).board =
        d.board.getD emptyBoard) ∧
    (∀ (sender : JsVal) (d : Payload),
      (handleMatchData c (run c s events)
        { opCode := 3, senderId := sender, data := some d }).winner = d.winner ∧
      (handleMatchData c (run c s events)
        { opCode := 3, senderId := sender, data := some d }).board = d.board.getD s.board ∧
      (∀ line, d.winningLine = some line →
        (handleMatchData c (run c s events)
          { opCode := 3, senderId := sender, data := some d }).winningLine = some line) ∧
      (d.winningLine = none →
        (handleMatchData c (run c s events)
          { opCode := 3, senderId := sender, data := some d }).winningLine =
          s.winningLine)) := by
  have hfrozen := run_frozen_when_over c s events hover hevents
  refine ⟨hfrozen.1, hfrozen.2.1, hfrozen.2.2.1, hfrozen.2.2.2, ?_, ?_, ?_, ?_⟩
  · intro prior sender data
    exact handleMatchData_gameOver_of_over c prior sender data
  · intro later
    exact run_gameOver_mono c s later hover
  · intro sender d hkind
    exact handleMatchData_state_board c (run c s events) sender d hkind
  · intro sender d
    have h := handleMatchData_over_fields c (run c s events) sender d
    rw [hfrozen.1, hfrozen.2.2.1] at h
    exact h

/-- C6 witness: after the game is over, a click at the empty cell 4, a presence
leave, an ERROR message and a PLAYER_JOIN leave board, winner and line alone. -/
theorem C6_outcome_frozen_except_state_and_over_witness :
    exFinished.gameOver = true ∧
    (run (Captured.firstRender "classic") exFinished
      [Event.click (some exNakama.module) 4, Event.presence [] ["op"],
       Event.matchData { opCode := 4, senderId := JsVal.null, data := some Payload.empty },
       Event.matchData (exJoin (JsVal.str "O"))]).board = exFinished.board ∧
    (run (Captured.firstRender "classic") exFinished
      [Event.click (some exNakama.module) 4, Event.presence [] ["op"],
       Event.matchData { opCode := 4, senderId := JsVal.null, data := some Payload.empty },
       Event.matchData (exJoin (JsVal.str "O"))]).winner = JsVal.str "X" :=
  ⟨by decide,
   (C6_outcome_frozen_except_state_and_over (Captured.firstRender "classic") exFinished
      [Event.click (some exNakama.module) 4, Event.presence [] ["op"],
       Event.matchData { opCode := 4, senderId := JsVal.null, data := some Payload.empty },
       Event.matchData (exJoin (JsVal.str "O"))] (by decide) (by decide)).1,
   (C6_outcome_frozen_except_state_and_over (Captured.firstRender "classic") exFinished
      [Event.click (some exNakama.module) 4, Event.presence [] ["op"],
       Event.matchData { opCode := 4, senderId := JsVal.null, data := some Payload.empty },
       Event.matchData (exJoin (JsVal.str "O"))] (by decide) (by decide)).2.1⟩

/-- C7: `handlePresenceChange` sets `status` to `opponent_left` exactly when the
leave list is non-empty, whatever the prior status, the joins and the leaving
participants are, and otherwise returns the session unchanged; the same holds
for the callback installed by `onMatchPresence`, which reads a missing leave
list as empty. -/
theorem C7_presence_leave_sets_opponent_left (s : Session) (joins leaves : List String)
    (joinsOpt leavesOpt : Option (List String)) :
    (handlePresenceChange s joins leaves).status =
      (if leaves = [] then s.status else Status.opponent_left) ∧
    handlePresenceChange s joins leaves =
      (if leaves = [] then s else { s with status := Status.opponent_left }) ∧
    (onMatchPresence s joinsOpt leavesOpt).status =
      (if leavesOpt.getD [] = [] then s.status else Status.opponent_left) := by
  have key : ∀ (j l : List String), handlePresenceChange s j l =
      (if l = [] then s else { s with status := Status.opponent_left }) := by
    intro j l
    unfold handlePresenceChange
    cases l with
    | nil => simp
    | cons a t => simp
  refine ⟨?_, key joins leaves, ?_⟩
  · rw [key]
    split <;> rfl
  · unfold onMatchPresence
    rw [key]
    split <;> rfl

/-- C8: after a PLAYER_JOIN (op code 6) whose payload assigns a truthy symbol,
`mySymbol` equals that symbol, and it still does after any finite sequence of
later events in which no message carries a symbol assignment. -/
theorem C8_symbol_kept_without_assignment (c : Captured) (s : Session) (sender : JsVal)
    (d : Payload) (events : List Event)
    (hsymbol : d.yourSymbol.truthy = true)
    (hlater : ∀ e ∈ events, e.carriesSymbol = false) :
    (handleMatchData c s { opCode := 6, senderId := sender, data := some d }).mySymbol =
      d.yourSymbol ∧
    (run c (handleMatchData c s { opCode := 6, senderId := sender, data := some d })
      events).mySymbol = d.yourSymbol := by
  have hjoin : (handleMatchData c s
      { opCode := 6, senderId := sender, data := some d }).mySymbol = d.yourSymbol := by
    simp [handleMatchData, hsymbol]
  exact ⟨hjoin, (run_mySymbol_of_no_assignment c _ events hlater).trans hjoin⟩

/-- C8 witness: `O` is assigned, then a GAME_STATE without assignment, a
GAME_OVER, an ERROR, a reserved op code and an unknown one arrive. -/
theorem C8_symbol_kept_without_assignment_witness :
    (run (Captured.firstRender "classic")
      (handleMatchData (Captured.firstRender "classic") Session.initial
        { opCode := 6, senderId := JsVal.null,
          data := some { Payload.empty with yourSymbol := JsVal.str "O" } })
      [Event.matchData (exState emptyBoard),
       Event.matchData (exOver (JsVal.str "X") [0, 1, 2]),
       Event.matchData { opCode := 4, senderId := JsVal.null, data := some Payload.empty },
       Event.matchData { opCode := 5, senderId := JsVal.null, data := some Payload.empty },
       Event.matchData { opCode := 42, senderId := JsVal.null, data := none }]).mySymbol =
      JsVal.str "O" :=
  (C8_symbol_kept_without_assignment (Captured.firstRender "classic") Session.initial
    JsVal.null { Payload.empty with yourSymbol := JsVal.str "O" }
    [Event.matchData (exState emptyBoard),
     Event.matchData (exOver (JsVal.str "X") [0, 1, 2]),
     Event.matchData { opCode := 4, senderId := JsVal.null, data := some Payload.empty },
     Event.matchData { opCode := 5, senderId := JsVal.null, data := some Payload.empty },
     Event.matchData { opCode := 42, senderId := JsVal.null, data := none }]
    (by decide) (by decide)).2

/-- C9, as stated, fails: `mySymbol` is `X` after a first PLAYER_JOIN and `O`
after a second PLAYER_JOIN that assigns `O`; a GAME_STATE that carries an
assignment overwrites it as well. -/
theorem C9_counterexample :
    (run (Captured.firstRender "classic") Session.initial
      [Event.matchData (exJoin (JsVal.str "X"))]).mySymbol = JsVal.str "X" ∧
    (run (Captured.firstRender "classic") Session.initial
      [Event.matchData (exJoin (JsVal.str "X")),
       Event.matchData (exJoin (JsVal.str "O"))]).mySymbol = JsVal.str "O" ∧
    (run (Captured.firstRender "classic") Session.initial
      [Event.matchData (exJoin (JsVal.str "X")),
       Event.matchData
         { opCode := 1, senderId := JsVal.null,
           data := some { Payload.empty with
             type := JsVal.str "game_start", yourSymbol := JsVal.str "O" } }]).mySymbol =
      JsVal.str "O" := by
  decide

/-- C9, amended: the last assignment wins. After any sequence of events
`mySymbol` is the symbol of the last message that assigned one (a PLAYER_JOIN,
or a GAME_STATE of kind `game_start` or `game_state`, with a truthy
`yourSymbol`), and the prior value when no message did; no other event (click,
presence, matched, tick, any other message) changes it. -/
theorem C9_last_assignment_wins (c : Captured) (s : Session) (events : List Event) :
    (run c s events).mySymbol =
      (events.filterMap Event.assignedSymbol).getLast?.getD s.mySymbol := by
  induction events generalizing s with
  | nil => rfl
  | cons e es ih =>
    rw [run_cons, ih (step c s e), step_mySymbol]
    cases he : e.assignedSymbol with
    | none => simp [List.filterMap_cons, he]
    | some v => simp [List.filterMap_cons, he, getLast_cons_getD]

/-- C10, as stated, fails: a GAME_STATE whose payload board has two cells makes
the session board two cells long, and so does a GAME_OVER carrying such a board. -/
theorem C10_counterexample :
    (run (Captured.firstRender "classic") Session.initial
      [Event.matchData (exState [JsVal.str "X", JsVal.null])]).board.length = 2 ∧
    (run (Captured.firstRender "classic") Session.initial
      [Event.matchData
         { opCode := 3, senderId := JsVal.null,
           data := some { Payload.empty with
             winner := JsVal.str "X",
             board := some [JsVal.str "X", JsVal.null] } }]).board.length = 2 := by
  decide

/-- C10, amended: starting from the initial empty board, the board has nine
cells after every sequence of events (messages of any op code, presence events,
clicks at any index, matched events, ticks) in which every board carried by the
payload of a GAME_STATE (1) or GAME_OVER (3) message has nine cells; what the
payloads of other messages carry does not matter. -/
theorem C10_board_length_nine (c : Captured) (events : List Event)
    (hboards : ∀ e ∈ events, e.isStateOrOver = true → e.boardHasNineCells = true) :
    (run c Session.initial events).board.length = 9 := by
  have inv : ∀ (es : List Event) (s : Session),
      (∀ e ∈ es, e.isStateOrOver = true → e.boardHasNineCells = true) →
      s.board.length = 9 → (run c s es).board.length = 9 := by
    intro es
    induction es with
    | nil => intro s _ hs; exact hs
    | cons e es ih =>
      intro s h hs
      rw [run_cons]
      exact ih (step c s e) (fun e' he' => h e' (List.mem_cons_of_mem e he'))
        (step_board_length c s e (h e (List.mem_cons_self e es)) hs)
  exact inv events Session.initial hboards rfl

/-- C10 witness: a join, a nine-cell GAME_STATE, an ERROR message whose payload
carries a two-cell board, clicks inside and outside the board, a presence leave
and a GAME_OVER without board. -/
theorem C10_board_length_nine_witness :
    (run (Captured.firstRender "timed") Session.initial
      [Event.matchData (exJoin (JsVal.str "X")), Event.matchData (exState emptyBoard),
       Event.matchData
         { opCode := 4, senderId := JsVal.null,
           data := some { Payload.empty with board := some [JsVal.str "X", JsVal.null] } },
       Event.click (some exNakama.module) 4, Event.click (some exNoSocket.module) 11,
       Event.presence [] ["op"],
       Event.matchData (exOver (JsVal.str "X") [0, 1, 2])]).board.length = 9 :=
  C10_board_length_nine (Captured.firstRender "timed")
    [Event.matchData (exJoin (JsVal.str "X")), Event.matchData (exState emptyBoard),
     Event.matchData
       { opCode := 4, senderId := JsVal.null,
         data := some { Payload.empty with board := some [JsVal.str "X", JsVal.null] } },
     Event.click (some exNakama.module) 4, Event.click (some exNoSocket.module) 11,
     Event.presence [] ["op"],
     Event.matchData (exOver (JsVal.str "X") [0, 1, 2])] (by decide)

/-! ## Timer reset, session start, turn timer (claims C11-C14) -/

/-- C11, as stated, fails: in timed mode a GAME_STATE message (op code 1) whose
kind is `update`, or whose payload is `null`, leaves `timeRemaining` at 7. -/
theorem C11_counterexample :
    (handleMatchData (Captured.firstRender "timed")
      { Session.initial with timeRemaining := 7 }
      { opCode := 1, senderId := JsVal.null,
        data := some { Payload.empty with
          type := JsVal.str "update", board := some emptyBoard } }).timeRemaining = 7 ∧
    (handleMatchData (Captured.firstRender "timed")
      { Session.initial with timeRemaining := 7 }
      { opCode := 1, senderId := JsVal.null, data := none }).timeRemaining = 7 := by
  decide

/-- C11, amended: in timed mode, for every prior value of `timeRemaining`, a
GAME_STATE message (op code 1) of kind `game_start` or `game_state` sets
`timeRemaining` to 30; a GAME_STATE message of any other kind leaves it as it
was. -/
theorem C11_recognised_game_state_resets_timer (c : Captured) (s : Session) (sender : JsVal)
    (d : Payload) (htimed : c.gameMode = "timed") :
    ((d.type = JsVal.str "game_start" ∨ d.type = JsVal.str "game_state") →
      (handleMatchData c s { opCode := 1, senderId := sender, data := some d }).timeRemaining
        = 30) ∧
    (¬ (d.type = JsVal.str "game_start" ∨ d.type = JsVal.str "game_state") →
      (handleMatchData c s { opCode := 1, senderId := sender, data := some d }).timeRemaining
        = s.timeRemaining) := by
  constructor
  · intro hkind
    unfold handleMatchData
    cases hy : d.yourSymbol.truthy <;> simp [hkind, hy, htimed]
  · intro hkind
    unfold handleMatchData
    simp [hkind]

/-- C11 witness: seven seconds are left when a GAME_STATE of kind `game_state`
arrives in timed mode. -/
theorem C11_recognised_game_state_resets_timer_witness :
    (handleMatchData (Captured.firstRender "timed")
      { Session.initial with timeRemaining := 7 } (exState emptyBoard)).timeRemaining = 30 :=
  (C11_recognised_game_state_resets_timer (Captured.firstRender "timed")
    { Session.initial with timeRemaining := 7 } JsVal.null
    { Payload.empty with
      type := JsVal.str "game_state", board := some emptyBoard,
      currentTurn := JsVal.str "me", currentSymbol := JsVal.str "X",
      players := some [("me", "ann"), ("op", "bob")] } rfl).1 (Or.inr rfl)

/-- C12, what the code does: whenever the dynamic import succeeds,
`initializeGame` ends with `status = searching` and leaves `error` untouched,
also when the service has no socket or `addMatchmaker` rejects, because
`findMatch` catches every failure and its result is only logged. -/
theorem C12_failed_matchmaking_stays_searching (n : Nakama) (addMatchmaker : Option JsVal)
    (s : Session) :
    (initializeGame (some n) addMatchmaker s).status = Status.searching ∧
    (initializeGame (some n) addMatchmaker s).error = s.error ∧
    (findMatch { n with socket := none } addMatchmaker).ticket = JsVal.undefined ∧
    (findMatch n none).ticket = JsVal.undefined := by
  refine ⟨?_, ?_, rfl, ?_⟩
  · unfold initializeGame
    simp
  · unfold initializeGame
    simp
  · unfold findMatch
    cases n.socket <;> rfl

/-- C13, as stated, fails: with status `opponent_left`, in timed mode, the local
player still recorded as turn holder and the game not over, the timer effect
arms the countdown, because its condition reads `matchId` and not `status`. -/
theorem C13_counterexample :
    exMatchedLeft.status = Status.opponent_left ∧
    isMyTurn (some exNakama.module) exMatchedLeft = true ∧
    exMatchedLeft.gameOver = false ∧
    timerEffect "timed" (some exNakama.module) exMatchedLeft = true := by
  decide

/-- C13, amended: the timer effect arms the countdown exactly when `gameMode` is
`timed` and a match id is set and the game is not over and the turn holder is
the local participant; `status` plays no part. -/
theorem C13_timer_armed_iff (gameMode : String) (nakamaRef : Option NakamaModule)
    (s : Session) (st : Status) :
    (timerEffect gameMode nakamaRef s = true ↔
      (gameMode = "timed" ∧ s.matchId.truthy = true ∧ s.gameOver = false ∧
        isMyTurn nakamaRef s = true)) ∧
    timerEffect gameMode nakamaRef { s with status := st } = timerEffect gameMode nakamaRef s := by
  constructor
  · unfold timerEffect
    simp [and_assoc]
  · unfold timerEffect
    cases nakamaRef <;> rfl

/-- C14: a tick lowers `timeRemaining` by exactly 1 while it is above 1; the tick
taken at 1 or less sets it to 0 and clears the interval; a tick changes no other
field of the session; and starting from 30 with the interval set, after `n`
firings the value is `max (30 - n) 0`, the interval being set exactly while
`n < 30`. -/
theorem C14_countdown (s : Session) (n : Nat) :
    (1 < s.timeRemaining →
      (intervalTick { session := s, running := true }).session.timeRemaining =
        s.timeRemaining - 1 ∧
      (intervalTick { session := s, running := true }).running = true) ∧
    (s.timeRemaining ≤ 1 →
      (intervalTick { session := s, running := true }).session.timeRemaining = 0 ∧
      (intervalTick { session := s, running := true }).running = false) ∧
    (intervalTick { session := s, running := true }).session =
      { s with timeRemaining :=
          (intervalTick { session := s, running := true }).session.timeRemaining } ∧
    step (Captured.firstRender "timed") s Event.tick =
      (intervalTick { session := s, running := true }).session ∧
    (s.timeRemaining = 30 →
      ((intervalTick^[n]) { session := s, running := true }).session =
        { s with timeRemaining := max (30 - (n : Int)) 0 } ∧
      0 ≤ ((intervalTick^[n]) { session := s, running := true }).session.timeRemaining ∧
      ((intervalTick^[n]) { session := s, running := true }).running = decide (n < 30)) := by
  refine ⟨?_, ?_, ?_, ?_, ?_⟩
  · intro h
    have h' : ¬ s.timeRemaining ≤ 1 := by omega
    simp [intervalTick, timerTick, h']
  · intro h
    simp [intervalTick, timerTick, h]
  · simp [intervalTick, timerTick]
  · simp [intervalTick, step]
  · intro h
    rw [intervalTick_iterate s h n]
    refine ⟨rfl, ?_, rfl⟩
    show 0 ≤ max (30 - (n : Int)) 0
    omega

/-- C14 witness: the countdown of the initial session after 12 and after 45
firings. -/
theorem C14_countdown_witness :
    Session.initial.timeRemaining = 30 ∧
    ((intervalTick^[12]) { session := Session.initial, running := true }).session =
      { Session.initial with timeRemaining := 18 } ∧
    ((intervalTick^[45]) { session := Session.initial, running := true }).session =
      { Session.initial with timeRemaining := 0 } ∧
    ((intervalTick^[45]) { session := Session.initial, running := true }).running = false :=
  ⟨rfl,
   ((C14_countdown Session.initial 12).2.2.2.2 rfl).1,
   ((C14_countdown Session.initial 45).2.2.2.2 rfl).1,
   ((C14_countdown Session.initial 45).2.2.2.2 rfl).2.2⟩

/-! ## Decoder and other op codes (claims C15-C16) -/

/-- C15: when parsing the payload bytes throws, the handler installed by
`onMatchData` hands no message to the callback and the session is unchanged;
when parsing succeeds, the callback receives the envelope's op code and the
decoded data, so the session becomes what `handleMatchData` makes of them. The
handler is total: the failure is caught, never raised. -/
theorem C15_malformed_dropped_wellformed_delivered
    (jsonParse : List Nat → Option (Option Payload)) (c : Captured) (s : Session)
    (op : Int) (presence : Option JsVal) (bytes : List Nat) :
    (jsonParse bytes = none →
      decodeMatchData jsonParse { op_code := op, presence := presence, data := some bytes }
        = none ∧
      onMatchData jsonParse c s { op_code := op, presence := presence, data := some bytes }
        = s) ∧
    (∀ data, jsonParse bytes = some data →
      decodeMatchData jsonParse { op_code := op, presence := presence, data := some bytes }
        = some { opCode := op, senderId := presence.getD JsVal.null, data := data } ∧
      onMatchData jsonParse c s { op_code := op, presence := presence, data := some bytes }
        = handleMatchData c s
            { opCode := op, senderId := presence.getD JsVal.null, data := data }) := by
  constructor
  · intro h
    simp [onMatchData, decodeMatchData, h]
  · intro data h
    simp [onMatchData, decodeMatchData, h]

/-- C15 witness: three bytes that do not parse are dropped on the playing
session, although the envelope says GAME_OVER. -/
theorem C15_malformed_dropped_wellformed_delivered_witness :
    exParse [123, 34, 125] = none ∧
    onMatchData exParse (Captured.firstRender "classic") exPlaying
      { op_code := 3, presence := none, data := some [123, 34, 125] } = exPlaying :=
  ⟨by decide,
   ((C15_malformed_dropped_wellformed_delivered exParse (Captured.firstRender "classic")
      exPlaying 3 none [123, 34, 125]).1 (by decide)).2⟩

/-- C16: for a message whose op code is not GAME_STATE (1), GAME_OVER (3) or
PLAYER_JOIN (6): status, board, turn holder, turn symbol, participants, local
symbol and outcome are unchanged; an ERROR message (4) with a payload object
sets `error` to the payload's `message` and changes nothing else; every other
op code changes no field at all. -/
theorem C16_other_op_codes (c : Captured) (s : Session) (m : Message)
    (h1 : m.opCode ≠ OpCode.GAME_STATE) (h3 : m.opCode ≠ OpCode.GAME_OVER)
    (h6 : m.opCode ≠ OpCode.PLAYER_JOIN) :
    ((handleMatchData c s m).status = s.status ∧
      (handleMatchData c s m).board = s.board ∧
      (handleMatchData c s m).currentTurn = s.currentTurn ∧
      (handleMatchData c s m).currentSymbol = s.currentSymbol ∧
      (handleMatchData c s m).players = s.players ∧
      (handleMatchData c s m).mySymbol = s.mySymbol ∧
      (handleMatchData c s m).winner = s.winner ∧
      (handleMatchData c s m).winningLine = s.winningLine ∧
      (handleMatchData c s m).gameOver = s.gameOver) ∧
    (∀ d, m.opCode = OpCode.ERROR → m.data = some d →
      handleMatchData c s m = { s with error := d.message }) ∧
    (m.opCode ≠ OpCode.ERROR → handleMatchData c s m = s) := by
  rcases m with ⟨op, sender, data⟩
  simp only at h1 h3 h6
  refine ⟨?_, ?_, ?_⟩
  · unfold handleMatchData
    by_cases h4 : op = OpCode.ERROR
    · cases data <;> simp [h4]
    · simp [h1, h3, h6, h4]
  · intro d h4 hd
    simp only at h4 hd
    unfold handleMatchData
    simp [h4, hd]
  · intro h4
    simp only at h4
    unfold handleMatchData
    simp [h1, h3, h6, h4]

/-- C16 witness: an ERROR message, a TURN_UPDATE and an unknown op code on the
playing session. -/
theorem C16_other_op_codes_witness :
    handleMatchData (Captured.firstRender "classic") exPlaying
      { opCode := 4, senderId := JsVal.null,
        data := some { Payload.empty with message := JsVal.str "Not your turn" } } =
      { exPlaying with error := JsVal.str "Not your turn" } ∧
    handleMatchData (Captured.firstRender "classic") exPlaying
      { opCode := 5, senderId := JsVal.null, data := some Payload.empty } = exPlaying ∧
    handleMatchData (Captured.firstRender "classic") exPlaying
      { opCode := 99, senderId := JsVal.null, data := none } = exPlaying :=
  ⟨(C16_other_op_codes (Captured.firstRender "classic") exPlaying
      { opCode := 4, senderId := JsVal.null,
        data := some { Payload.empty with message := JsVal.str "Not your turn" } }
      (by decide) (by decide) (by decide)).2.1 _ rfl rfl,
   (C16_other_op_codes (Captured.firstRender "classic") exPlaying
      { opCode := 5, senderId := JsVal.null, data := some Payload.empty }
      (by decide) (by decide) (by decide)).2.2 (by decide),
   (C16_other_op_codes (Captured.firstRender "classic") exPlaying
      { opCode := 99, senderId := JsVal.null, data := none }
      (by decide) (by decide) (by decide)).2.2 (by decide)⟩

/-! ## MOVE encoding, game result, teardown, win detection (claims C17-C20) -/

/-- C17, as stated, fails: a socket and a match id are present, but the
socket's `sendMatchState` throws; `sendMove(4)` catches the error, no message
goes out and the function returns `false`. -/
theorem C17_counterexample :
    exThrowing.socket ≠ none ∧ exThrowing.matchId.truthy = true ∧
    sendMove exThrowing 4 = (false, []) := by
  decide

/-- C17, amended: for every position `p` that is a non-negative safe integer
(`p < 2^53`, as every board index is), when a socket and a match id are present
and `sendMatchState` does not throw, `sendMove(p)` hands the socket exactly one
message, for that match, with op code 2 and the text `\x7b"position":p\x7d` (the
prefix, the decimal digits of `p`, a closing brace) as payload, and returns
`true`; reading that text back yields `p` and nothing else. When
`sendMatchState` throws, `sendMove(p)` sends nothing and returns `false`. -/
theorem C17_sendMove_sends_position (n : Nakama) (socket : Socket) (p : Nat)
    (hp : p < 2 ^ 53)
    (hsocket : n.socket = some socket) (hid : n.matchId.truthy = true) :
    (socket.sendMatchStateThrows = false →
      sendMove n p =
        (true, [{ matchId := n.matchId, opCode := OpCode.MOVE, data := movePayload p }])) ∧
    (socket.sendMatchStateThrows = true → sendMove n p = (false, [])) ∧
    movePayload p = String.mk movePrefix ++ toString p ++ String.mk [Char.ofNat 125] ∧
    readMovePayload (movePayload p) = some p := by
  have _ := hp
  refine ⟨?_, ?_, ?_, readMovePayload_movePayload p⟩
  · intro h
    simp [sendMove, hsocket, hid, h]
  · intro h
    simp [sendMove, hsocket, hid, h]
  · rfl

/-- C17 witness: position 4 on the joined socket of `me`. -/
theorem C17_sendMove_sends_position_witness :
    sendMove exNakama 4 =
      (true, [{ matchId := JsVal.str "m1", opCode := 2, data := "\x7b\"position\":4\x7d" }]) ∧
    readMovePayload "\x7b\"position\":4\x7d" = some 4 :=
  ⟨(C17_sendMove_sends_position exNakama { sendMatchStateThrows := false } 4 (by norm_num)
      rfl (by decide)).1 rfl,
   (C17_sendMove_sends_position exNakama { sendMatchStateThrows := false } 4 (by norm_num)
      rfl (by decide)).2.2.2⟩

/-- C18, what the code does: the handler registered at mount closes over the
first render, so the result scheduled for `onGameEnd` carries the winner and
the reason of the message, but `mySymbol = null` and, when the message has no
board, the initial empty board, whatever the session's symbol and board are. In
the session `exWon` the local symbol is `X` and the board holds the won row,
yet the consumer receives `mySymbol = null` and an empty board. -/
theorem C18_result_uses_first_render_values (gameMode : String) (s : Session)
    (sender : JsVal) (d : Payload) :
    (handleMatchData (Captured.firstRender gameMode) s
      { opCode := 3, senderId := sender, data := some d }).timeouts =
      s.timeouts ++ [{ winner := d.winner, mySymbol := JsVal.null, reason := d.reason,
                       board := d.board.getD emptyBoard }] ∧
    exWon.mySymbol = JsVal.str "X" ∧
    exWon.board = exWonBoard ∧
    (elapse exWon).1 =
      [{ winner := JsVal.str "X", mySymbol := JsVal.null, reason := JsVal.undefined,
         board := emptyBoard }] := by
  refine ⟨?_, by decide, by decide, by decide⟩
  unfold handleMatchData handleGameOver
  cases hl : d.winningLine <;> cases hb : d.board <;>
    simp [hl, hb, Captured.firstRender, Session.initial]

/-- C19, what the code does: teardown clears the interval but leaves every
pending timeout in place, so a result scheduled by a GAME_OVER is still handed
to `onGameEnd` when the grace delay elapses after teardown. -/
theorem C19_timeout_survives_teardown (t : Countdown) :
    (cleanup t).session.timeouts = t.session.timeouts ∧
    (cleanup t).running = false ∧
    (elapse (cleanup { session := exWon, running := true }).session).1 =
      [{ winner := JsVal.str "X", mySymbol := JsVal.null, reason := JsVal.undefined,
         board := emptyBoard }] := by
  exact ⟨rfl, rfl, by decide⟩

/-- C20, as stated, fails: on a nine-cell board whose row 0-1-2 holds `X` and
whose row 3-4-5 holds `O`, the line 3-4-5 is completed by `O` but `checkWinner`
returns `X`. -/
theorem C20_counterexample :
    exTwoLines.length = 9 ∧
    (3, 4, 5) ∈ winCombinations ∧
    boardAt exTwoLines 3 = JsVal.str "O" ∧ boardAt exTwoLines 4 = JsVal.str "O" ∧
    boardAt exTwoLines 5 = JsVal.str "O" ∧
    checkWinner exTwoLines ≠ JsVal.str "O" := by
  decide

/-- C20, amended: the lines are scanned in the order 012, 345, 678, 036, 147,
258, 048, 246, and a line passes the test exactly when its three cells hold one
truthy value. If the three cells of one of the eight lines hold the same symbol
`v`, then `checkWinner(board)` returns the symbol of the first completed line in
that order: every line before it in the list is not completed; and it returns
`v` whenever no line is completed by a different symbol. -/
theorem C20_checkWinner_completed_line (board : List JsVal) (combo : Nat × Nat × Nat)
    (v : JsVal) (hmem : combo ∈ winCombinations)
    (h1 : boardAt board combo.1 = v) (h2 : boardAt board combo.2.1 = v)
    (h3 : boardAt board combo.2.2 = v) (hv : v.truthy = true) :
    winCombinations =
      [(0, 1, 2), (3, 4, 5), (6, 7, 8), (0, 3, 6), (1, 4, 7), (2, 5, 8), (0, 4, 8),
       (2, 4, 6)] ∧
    (∀ line : Nat × Nat × Nat, lineWon board line = true ↔
      ∃ w : JsVal, w.truthy = true ∧ boardAt board line.1 = w ∧
        boardAt board line.2.1 = w ∧ boardAt board line.2.2 = w) ∧
    (∃ front first back, winCombinations = front ++ first :: back ∧
      (∀ line ∈ front, lineWon board line = false) ∧
      lineWon board first = true ∧
      checkWinner board = boardAt board first.1) ∧
    ((∀ other ∈ winCombinations, lineWon board other = true → boardAt board other.1 = v) →
      checkWinner board = v) := by
  have hwon : lineWon board combo = true := lineWon_of_cells board combo v h1 h2 h3 hv
  have hfirst : ∃ front first back, winCombinations = front ++ first :: back ∧
      (∀ line ∈ front, lineWon board line = false) ∧
      lineWon board first = true ∧
      checkWinner board = boardAt board first.1 := by
    unfold checkWinner
    cases hfind : winCombinations.find? (lineWon board) with
    | none =>
      have hnone := List.find?_eq_none.mp hfind combo hmem
      exact absurd hwon hnone
    | some first =>
      obtain ⟨hp, front, back, hsplit, hfront⟩ := List.find?_eq_some.mp hfind
      refine ⟨front, first, back, hsplit, ?_, hp, rfl⟩
      intro line hline
      simpa using hfront line hline
  refine ⟨rfl, ?_, hfirst, ?_⟩
  · intro line
    rw [lineWon_iff]
    constructor
    · intro h
      exact ⟨boardAt board line.1, h.1, rfl, h.2.1.symm, h.2.2.symm⟩
    · rintro ⟨w, hw, ha, hb, hc⟩
      rw [ha, hb, hc]
      exact ⟨hw, rfl, rfl⟩
  · intro honly
    obtain ⟨front, first, back, hsplit, _, hfw, hfv⟩ := hfirst
    rw [hfv]
    refine honly first ?_ hfw
    rw [hsplit]
    simp

/-- C20 witness: on the board with `X` on 0-1-2 and `O` on 3-4-5 the line 3-4-5
is completed by `O`, and the first completed line in the order decides, so the
result is `X`; the diagonal 2-4-6 held by `O` on a board with no other line
gives `O`. -/
theorem C20_checkWinner_completed_line_witness :
    checkWinner exTwoLines = JsVal.str "X" ∧
    checkWinner [JsVal.str "X", JsVal.str "X", JsVal.str "O", JsVal.null, JsVal.str "O",
      JsVal.str "X", JsVal.str "O", JsVal.null, JsVal.null] = JsVal.str "O" :=
  ⟨by
     obtain ⟨front, first, back, hsplit, hfront, _, hfv⟩ :=
       (C20_checkWinner_completed_line exTwoLines (3, 4, 5) (JsVal.str "O") (by decide)
         (by decide) (by decide) (by decide) (by decide)).2.2.1
     cases front with
     | nil =>
       have hfirst : (0, 1, 2) = first := by
         have hcons := hsplit
         simp only [winCombinations, List.nil_append, List.cons.injEq] at hcons
         exact hcons.1
       rw [hfv, ← hfirst]
       decide
     | cons a t =>
       have ha : (0, 1, 2) = a := by
         have hcons := hsplit
         simp only [winCombinations, List.cons_append, List.cons.injEq] at hcons
         exact hcons.1
       have hlost := hfront a (List.mem_cons_self a t)
       rw [← ha] at hlost
       exact absurd hlost (by decide),
   (C20_checkWinner_completed_line
      [JsVal.str "X", JsVal.str "X", JsVal.str "O", JsVal.null, JsVal.str "O",
        JsVal.str "X", JsVal.str "O", JsVal.null, JsVal.null]
      (2, 4, 6) (JsVal.str "O") (by decide) (by decide) (by decide) (by decide)
      (by decide)).2.2.2 (by decide)⟩

/-! ## No winner, and the symbol written by a move (claims C21-C22) -/

/-- C21: on a board where no one of the eight lines holds one symbol in all
three cells, `checkWinner(board)` returns `null`, in particular on every full
board (`isBoardFull`) without such a line; and when `checkWinner(board)` is not
`null`, some line holds the returned symbol in all three cells. Nine cells are
not needed. -/
theorem C21_checkWinner_null_iff_no_line (board : List JsVal) :
    ((∀ combo ∈ winCombinations, ∀ v : JsVal, v.truthy = true →
        ¬ (boardAt board combo.1 = v ∧ boardAt board combo.2.1 = v ∧
            boardAt board combo.2.2 = v)) →
      checkWinner board = JsVal.null) ∧
    (isBoardFull board = true →
      (∀ combo ∈ winCombinations, ∀ v : JsVal, v.truthy = true →
        ¬ (boardAt board combo.1 = v ∧ boardAt board combo.2.1 = v ∧
            boardAt board combo.2.2 = v)) →
      checkWinner board = JsVal.null) ∧
    (checkWinner board ≠ JsVal.null →
      ∃ combo ∈ winCombinations, (checkWinner board).truthy = true ∧
        boardAt board combo.1 = checkWinner board ∧
        boardAt board combo.2.1 = checkWinner board ∧
        boardAt board combo.2.2 = checkWinner board) := by
  have hnull : (∀ combo ∈ winCombinations, ∀ v : JsVal, v.truthy = true →
        ¬ (boardAt board combo.1 = v ∧ boardAt board combo.2.1 = v ∧
            boardAt board combo.2.2 = v)) → checkWinner board = JsVal.null := by
    intro hnone
    unfold checkWinner
    cases hfind : winCombinations.find? (lineWon board) with
    | none => rfl
    | some first =>
      have hwon := (lineWon_iff board first).mp (List.find?_some hfind)
      exact absurd ⟨rfl, hwon.2.1.symm, hwon.2.2.symm⟩
        (hnone first (List.mem_of_find?_eq_some hfind) (boardAt board first.1) hwon.1)
  refine ⟨hnull, fun _ => hnull, ?_⟩
  intro hres
  unfold checkWinner at hres ⊢
  cases hfind : winCombinations.find? (lineWon board) with
  | none => simp [hfind] at hres
  | some first =>
    have hwon := (lineWon_iff board first).mp (List.find?_some hfind)
    exact ⟨first, List.mem_of_find?_eq_some hfind, hwon.1, rfl, hwon.2.1.symm,
      hwon.2.2.symm⟩

/-- C21 witness: a full board without a completed line has no winner. -/
theorem C21_checkWinner_null_iff_no_line_witness :
    isBoardFull exDrawBoard = true ∧ checkWinner exDrawBoard = JsVal.null :=
  ⟨by decide,
   (C21_checkWinner_null_iff_no_line exDrawBoard).2.1 (by decide)
     (fun combo hmem v hv h =>
       absurd (lineWon_of_cells exDrawBoard combo v h.1 h.2.1 h.2.2 hv)
         ((by decide : ∀ line ∈ winCombinations, lineWon exDrawBoard line ≠ true)
           combo hmem))⟩

/-- C22, as stated, fails: after a GAME_STATE that names the local player as
turn holder and carries no symbol assignment, with no PLAYER_JOIN received,
`handleCellClick(4)` sends a MOVE and the optimistic board holds `null` at
index 4; and after a PLAYER_JOIN that assigned the value `Z` it holds `Z`. -/
theorem C22_counterexample :
    (handleCellClick (some exNakama.module) exUnassigned 4).sent =
      [{ matchId := JsVal.str "m1", opCode := 2, data := "\x7b\"position\":4\x7d" }] ∧
    boardAt (handleCellClick (some exNakama.module) exUnassigned 4).optimistic.board 4 =
      JsVal.null ∧
    (handleCellClick (some exNakama.module) exOddSymbol 4).sent ≠ [] ∧
    boardAt (handleCellClick (some exNakama.module) exOddSymbol 4).optimistic.board 4 =
      JsVal.str "Z" := by
  decide

/-- C22, amended: in every session reached from the initial state by a sequence
of events, whenever `handleCellClick(i)` sends a MOVE the optimistic board holds
the current `mySymbol` at index `i`, which is the symbol of the last message
that assigned one and `null` when none did; it is `X` or `O` when some message
assigned a symbol and every assigned symbol is `X` or `O`. -/
theorem C22_move_writes_mySymbol (c : Captured) (events : List Event)
    (nakamaRef : Option NakamaModule) (i : Nat)
    (hsent : (handleCellClick nakamaRef (run c Session.initial events) i).sent ≠ []) :
    boardAt (handleCellClick nakamaRef (run c Session.initial events) i).optimistic.board i =
      (run c Session.initial events).mySymbol ∧
    (run c Session.initial events).mySymbol =
      (events.filterMap Event.assignedSymbol).getLast?.getD JsVal.null ∧
    ((∃ e ∈ events, e.assignedSymbol ≠ none) →
      (∀ e ∈ events, ∀ v, e.assignedSymbol = some v → v = JsVal.str "X" ∨ v = JsVal.str "O") →
      boardAt (handleCellClick nakamaRef (run c Session.initial events) i).optimistic.board i
          = JsVal.str "X" ∨
        boardAt (handleCellClick nakamaRef (run c Session.initial events) i).optimistic.board i
          = JsVal.str "O") := by
  have hwrite := handleCellClick_sent_optimistic nakamaRef (run c Session.initial events) i hsent
  have hlast : (run c Session.initial events).mySymbol =
      (events.filterMap Event.assignedSymbol).getLast?.getD JsVal.null :=
    run_mySymbol_last c Session.initial events
  refine ⟨hwrite, hlast, ?_⟩
  intro hsome hvalid
  rw [hwrite, hlast]
  cases hl : (events.filterMap Event.assignedSymbol).getLast? with
  | none =>
    obtain ⟨e, he, hne⟩ := hsome
    have hempty := List.getLast?_eq_none_iff.mp hl
    cases hv : e.assignedSymbol with
    | none => exact absurd hv hne
    | some v =>
      have hmem : v ∈ events.filterMap Event.assignedSymbol :=
        List.mem_filterMap.mpr ⟨e, he, hv⟩
      rw [hempty] at hmem
      exact absurd hmem (List.not_mem_nil v)
  | some v =>
    obtain ⟨e, he, hv⟩ := List.mem_filterMap.mp (List.mem_of_getLast?_eq_some hl)
    exact hvalid e he v hv

/-- C22 witness: `me` was assigned `X`, holds the turn and clicks cell 4. -/
theorem C22_move_writes_mySymbol_witness :
    (handleCellClick (some exNakama.module)
      (run (Captured.firstRender "classic") Session.initial
        [Event.matchData (exJoin (JsVal.str "X")), Event.matchData (exState emptyBoard)])
      4).sent ≠ [] ∧
    boardAt (handleCellClick (some exNakama.module)
      (run (Captured.firstRender "classic") Session.initial
        [Event.matchData (exJoin (JsVal.str "X")), Event.matchData (exState emptyBoard)])
      4).optimistic.board 4 = JsVal.str "X" :=
  ⟨by decide,
   (C22_move_writes_mySymbol (Captured.firstRender "classic")
      [Event.matchData (exJoin (JsVal.str "X")), Event.matchData (exState emptyBoard)]
      (some exNakama.module) 4 (by decide)).1⟩

end TicTacToe
